import Mathlib

/-!
Verification of the conversation-state and intent-resolution core of the
`mcp-with-context` middleware (a conversational proxy for Clarity PPM).

The development shallowly embeds the TypeScript sources:
* `ContextService` (per-session conversation state, history trimming, expiry),
* `AIChatHandler` (message routing, drill-down, link handling, plan
  generation and execution),
* `DeepLinkService`, `SuggestionService`,
* the retry loop of `ClarityApiClient.request`.

Conventions of the embedding:
* Timestamps are integer milliseconds since the epoch.  The source stores ISO
  strings and converts back with `new Date(s).getTime()`; the round trip is
  the identity in this model.  `Date.now()` / `new Date().toISOString()` are
  both the `now` field of the ambient environment (time is frozen for the
  duration of one request).
* JavaScript `Map` objects are modelled as functions `String → Option _`.
* Asynchronous calls to collaborators (the Clarity REST API, the metadata
  service, the external reasoning service) are oracles in an `Env` record;
  every such call is logged in an effect log so that "no remote call is
  attempted" is a statement about the log.  Thrown JS exceptions are
  `Except.error` with the message string; `try`/`catch` is `Eff.tryCatch`.
* The external reasoning call (`anthropic.messages.create` followed by the
  extraction of the first JSON object of the reply) is modelled as one oracle
  `Env.reasoning` that either returns the parsed plan or fails; the prompt
  text serialization is abstracted into a `ReasoningRequest` record carrying
  exactly the data the source interpolates into the prompt.
* JavaScript truthiness on optional strings (`!!s`) is `jsTruthy`; `x || y`
  on strings is `jsOr`; `x ?? y` is `Option.getD`.
-/

/-! ## String utilities (JS semantics) -/

/-- ASCII lower-casing of a character, as `String.prototype.toLowerCase`
acts on the ASCII range (the only range the sources rely on). -/
def lowerChar (c : Char) : Char :=
  if 65 ≤ c.toNat ∧ c.toNat ≤ 90 then Char.ofNat (c.toNat + 32) else c

/-- `s.toLowerCase()` -/
def strLower (s : String) : String := ⟨s.data.map lowerChar⟩

/-- the apostrophe character (code point 39), used in Clarity filter syntax -/
def sqc : Char := Char.ofNat 39

/-- the apostrophe as a one-character string -/
def sqs : String := String.singleton sqc

/-- `l` starts with `p` -/
def listStartsWith [DecidableEq α] : List α → List α → Bool
  | _, [] => true
  | [], _ :: _ => false
  | a :: as, b :: bs => a = b && listStartsWith as bs

/-- `l` contains `p` as a contiguous segment (JS `String.prototype.includes`) -/
def listContainsSeg [DecidableEq α] : List α → List α → Bool
  | s, p =>
    match s with
    | [] => listStartsWith [] p
    | _ :: rest => listStartsWith s p || listContainsSeg rest p

/-- `s.includes(p)` -/
def strIncludes (s p : String) : Bool := listContainsSeg s.data p.data

/-- `s.startsWith(p)` -/
def strStartsWith (s p : String) : Bool := listStartsWith s.data p.data

/-- JS whitespace (the subset relevant to the sources: `\s` on ASCII input) -/
def jsWs (c : Char) : Bool :=
  c.toNat = 32 || c.toNat = 9 || c.toNat = 10 || c.toNat = 11 ||
  c.toNat = 12 || c.toNat = 13

/-- `s.trim()` -/
def strTrim (s : String) : String :=
  ⟨((s.data.dropWhile jsWs).reverse.dropWhile jsWs).reverse⟩

/-- `s.substring(0, n)` (on code points) -/
def strTake (n : Nat) (s : String) : String := ⟨s.data.take n⟩

/-- `xs.join(sep)` -/
def strJoin (sep : String) : List String → String
  | [] => ""
  | [x] => x
  | x :: y :: rest => x ++ sep ++ strJoin sep (y :: rest)

/-- JS `a || b` for possibly-undefined strings: an absent or empty string is
falsy. -/
def jsOr (a b : Option String) : Option String :=
  match a with
  | some s => if s = "" then b else some s
  | none => b

/-- JS truthiness of a possibly-undefined string -/
def jsTruthy : Option String → Bool
  | some s => s ≠ ""
  | none => false

/-- decimal digit -/
def isDigitChar (c : Char) : Bool := 48 ≤ c.toNat ∧ c.toNat ≤ 57

/-- `\w` of JS regexes: `[A-Za-z0-9_]` -/
def isWordChar (c : Char) : Bool :=
  (65 ≤ c.toNat ∧ c.toNat ≤ 90) || (97 ≤ c.toNat ∧ c.toNat ≤ 122) ||
  isDigitChar c || c = '_'

/-- value of a (nonempty) digit run, as `parseInt` -/
def digitsToNat : List Char → Nat
  | [] => 0
  | c :: rest => digitsToNat rest + (c.toNat - 48) * 10 ^ rest.length

/-! ## Data model (src/types/context.ts, src/types/clarity.ts) -/

/-- a JSON value as it appears in Clarity API record fields -/
inductive JsValue where
  | vNull
  | vStr (s : String)
  | vNum (n : Int)
  | vBool (b : Bool)
  /-- an object field value; `displayValue`/`code` are the keys
  `formatFieldValue` inspects, `json` stands for `JSON.stringify` of the
  whole object. -/
  | vObj (displayValue code : Option String) (json : String)
deriving DecidableEq, Repr

/-- a record returned by the Clarity API: key/value pairs -/
abbrev RecordJson := List (String × JsValue)

/-- `record[k]` -/
def recGet (r : RecordJson) (k : String) : Option JsValue := r.lookup k

/-- JS `a ?? b ?? ...` over record lookups: both `undefined` (absent key) and
`null` values are skipped. -/
def jsCoalesce : List (Option JsValue) → Option JsValue
  | [] => none
  | some JsValue.vNull :: rest => jsCoalesce rest
  | some v :: _ => some v
  | none :: rest => jsCoalesce rest

/-- JS template-literal rendering of a value (`String(v)`) -/
def jsTemplate : Option JsValue → String
  | none => "undefined"
  | some JsValue.vNull => "null"
  | some (JsValue.vStr s) => s
  | some (JsValue.vNum n) => toString n
  | some (JsValue.vBool b) => if b then "true" else "false"
  | some (JsValue.vObj _ _ _) => "[object Object]"

/-- one entry of a value distribution (`{label, value}`) -/
structure ChartBucket where
  label : String
  value : Nat
deriving DecidableEq, Repr

/-- `ConversationTurn` (src/types/context.ts) -/
structure ConversationTurn where
  timestamp : Int
  role : String
  message : String
  action : Option String := none
  objectType : Option String := none
  success : Option Bool := none
deriving DecidableEq, Repr

/-- `ConversationContext.lastQuery` (src/types/context.ts) -/
structure LastQuery where
  objectType : String
  objectLabel : String
  action : String
  filters : Option (List (String × String)) := none
  results : Option (List RecordJson) := none
  totalCount : Option Int := none
  groupByField : Option String := none
  groupByDisplayName : Option String := none
  chartData : Option (List (String × List ChartBucket)) := none
  timestamp : Int
deriving DecidableEq, Repr

/-- `ConversationContext.currentPage` -/
structure PageRef where
  objectType : String
  recordId : Option String := none
  recordName : Option String := none
  url : Option String := none
deriving DecidableEq, Repr

/-- `ConversationContext` (src/types/context.ts) -/
structure ConversationContext where
  sessionId : String
  lastQuery : Option LastQuery := none
  currentPage : Option PageRef := none
  history : List ConversationTurn := []
  preferences : Option (List (String × String)) := none
deriving DecidableEq, Repr

/-- the per-session map `ContextService.contexts` -/
def ContextStore := String → Option ConversationContext

/-- pointwise map update (`Map.set`) -/
def fupdate (m : String → Option β) (k : String) (v : β) : String → Option β :=
  fun x => if x = k then some v else m x

/-- pointwise map deletion (`Map.delete`) -/
def fdelete (m : String → Option β) (k : String) : String → Option β :=
  fun x => if x = k then none else m x

/-- the empty store -/
def emptyStore : ContextStore := fun _ => none

/-! ## ContextService (src/services/ContextService.ts) -/

namespace ContextService

/-- `MAX_HISTORY_LENGTH` -/
def MAX_HISTORY_LENGTH : Nat := 20

/-- `CONTEXT_EXPIRY_MS` (30 minutes) -/
def CONTEXT_EXPIRY_MS : Int := 30 * 60 * 1000

/-- `createNewContext` -/
def createNewContext (sessionId : String) : ConversationContext :=
  { sessionId := sessionId, history := [] }

/-- `getContext`: get or create; creation writes the new context back into
the store. -/
def getContext (s : ContextStore) (sessionId : String) :
    ConversationContext × ContextStore :=
  match s sessionId with
  | some context => (context, s)
  | none =>
    let context := createNewContext sessionId
    (context, fupdate s sessionId context)

/-- `updateLastQuery` -/
def updateLastQuery (s : ContextStore) (sessionId : String)
    (query : Option LastQuery) : ContextStore :=
  let (context, s) := getContext s sessionId
  fupdate s sessionId { context with lastQuery := query }

/-- `addToHistory`: push, then trim to the last `MAX_HISTORY_LENGTH` turns
(`history.slice(-MAX_HISTORY_LENGTH)` when the length exceeds the bound). -/
def addToHistory (s : ContextStore) (sessionId : String)
    (turn : ConversationTurn) : ContextStore :=
  let (context, s) := getContext s sessionId
  let history := context.history ++ [turn]
  let history :=
    if history.length > MAX_HISTORY_LENGTH then
      history.drop (history.length - MAX_HISTORY_LENGTH)
    else history
  fupdate s sessionId { context with history := history }

/-- `setCurrentPage` -/
def setCurrentPage (s : ContextStore) (sessionId : String)
    (page : Option PageRef) : ContextStore :=
  let (context, s) := getContext s sessionId
  fupdate s sessionId { context with currentPage := page }

/-- merge of preference objects (`{ ...context.preferences, ...preferences }`):
keys of the update shadow keys of the old object. -/
def mergePrefs (old upd : List (String × String)) : List (String × String) :=
  old.filter (fun p => !(upd.any (fun q => q.1 = p.1))) ++ upd

/-- `updatePreferences` -/
def updatePreferences (s : ContextStore) (sessionId : String)
    (preferences : List (String × String)) : ContextStore :=
  let (context, s) := getContext s sessionId
  fupdate s sessionId
    { context with
      preferences := some (mergePrefs (context.preferences.getD []) preferences) }

/-- `canDrillDown`: `!!(lastQuery?.chartData && lastQuery?.groupByField)`.
An object is always truthy, a string is truthy iff nonempty. -/
def canDrillDown (s : ContextStore) (sessionId : String) :
    Bool × ContextStore :=
  let (context, s) := getContext s sessionId
  (match context.lastQuery with
   | some q => q.chartData.isSome && jsTruthy q.groupByField
   | none => false, s)

/-- `getDrillDownOptions` -/
def getDrillDownOptions (s : ContextStore) (sessionId : String) :
    List String × ContextStore :=
  let (context, s) := getContext s sessionId
  (match context.lastQuery with
   | some q =>
     if q.chartData.isSome && jsTruthy q.groupByField then
       match q.chartData, q.groupByField with
       | some cd, some f =>
         match cd.lookup f with
         | some chartData => chartData.map (fun item => item.label)
         | none => []
       | _, _ => []
     else []
   | none => [], s)

/-- `findDrillDownMatch`: case-insensitive exact match first, then
bidirectional substring match. -/
def findDrillDownMatch (s : ContextStore) (sessionId : String)
    (userValue : String) : Option String × ContextStore :=
  let (options, s) := getDrillDownOptions s sessionId
  let lowerUserValue := strLower userValue
  let exactMatch := options.find? (fun opt => strLower opt = lowerUserValue)
  match exactMatch with
  | some m => (some m, s)
  | none =>
    let partialMatch := options.find? (fun opt =>
      strIncludes (strLower opt) lowerUserValue ||
      strIncludes lowerUserValue (strLower opt))
    (partialMatch, s)

/-- `getLastObjectType` -/
def getLastObjectType (s : ContextStore) (sessionId : String) :
    Option String × ContextStore :=
  let (context, s) := getContext s sessionId
  (context.lastQuery.map (fun q => q.objectType), s)

/-- `clearContext` -/
def clearContext (s : ContextStore) (sessionId : String) : ContextStore :=
  fdelete s sessionId

/-- the last-activity instant used by the expiry sweep: the timestamp of the
last history entry, or 0 (the epoch) when the history is empty. -/
def lastActivity (context : ConversationContext) : Int :=
  match context.history.getLast? with
  | some turn => turn.timestamp
  | none => 0

/-- `cleanupExpiredContexts`: delete every session whose last activity is
more than `CONTEXT_EXPIRY_MS` before `now`. -/
def cleanupExpiredContexts (s : ContextStore) (now : Int) : ContextStore :=
  fun sessionId =>
    match s sessionId with
    | some context =>
      if now - lastActivity context > CONTEXT_EXPIRY_MS then none
      else some context
    | none => none

/-- `getContextSummary` -/
def getContextSummary (s : ContextStore) (sessionId : String) :
    String × ContextStore :=
  let (context, s) := getContext s sessionId
  let parts : List String := []
  let parts :=
    match context.lastQuery with
    | some q =>
      let parts := parts ++
        ["Last query: " ++ q.action ++ " on " ++ q.objectLabel]
      let parts :=
        if jsTruthy q.groupByField then
          let parts := parts ++
            ["Grouped by: " ++
              (jsOr q.groupByDisplayName q.groupByField).getD ""]
          let (options, _) := getDrillDownOptions s sessionId
          if options.length > 0 then
            parts ++ ["Available values: " ++ strJoin ", " (options.take 10)]
          else parts
        else parts
      match q.totalCount with
      | some n =>
        if n ≠ 0 then parts ++ ["Total records: " ++ toString n] else parts
      | none => parts
    | none => parts
  let parts :=
    match context.currentPage with
    | some page =>
      parts ++
        ["Current page: " ++ page.objectType ++
          (match page.recordName with
           | some rn => " - " ++ rn
           | none => "")]
    | none => parts
  let parts :=
    if context.history.length > 0 then
      let recentUserMessages :=
        ((context.history.filter (fun t => t.role = "user")).map
          (fun t => t.message))
      let recentUserMessages :=
        recentUserMessages.drop (recentUserMessages.length - 3)
      if recentUserMessages.length > 0 then
        parts ++ ["Recent questions: " ++ strJoin " | " recentUserMessages]
      else parts
    else parts
  (strJoin "\n" parts, s)

end ContextService

/-! ## Regex pattern matchers

The sources use a fixed table of JS regexes.  Each regex is embedded as an
explicit matcher over `List Char` with the engine's semantics: the pattern is
tried anchored at every position left to right, option groups prefer the
present alternative, `\s*`/`\s+`/`\w+` are greedy with backtracking where a
following literal requires it. -/

/-- split a leading whitespace run -/
def splitWs : List Char → List Char × List Char
  | [] => ([], [])
  | c :: rest =>
    if jsWs c then
      let (w, r) := splitWs rest
      (c :: w, r)
    else ([], c :: rest)

/-- `\s*` (greedy) -/
def eatWs0 (s : List Char) : List Char := (splitWs s).2

/-- `\s+` (greedy) -/
def eatWs1 (s : List Char) : Option (List Char) :=
  match splitWs s with
  | ([], _) => none
  | (_ :: _, r) => some r

/-- a literal -/
def eatLit (lit : String) (s : List Char) : Option (List Char) :=
  if listStartsWith s lit.data then some (s.drop lit.data.length) else none

/-- maximal `\w` run -/
def takeWordRun : List Char → List Char × List Char
  | [] => ([], [])
  | c :: rest =>
    if isWordChar c then
      let (w, r) := takeWordRun rest
      (c :: w, r)
    else ([], c :: rest)

/-- try the at-position matcher at every start position, left to right
(including the position after the last character) -/
def scanPositions (f : List Char → Option α) : List Char → Option α
  | [] => f []
  | c :: rest =>
    match f (c :: rest) with
    | some a => some a
    | none => scanPositions f rest

/-- `(\w+)` with nothing after it: the greedy capture is the whole run -/
def capWord (s : List Char) : Option String :=
  let (run, _) := takeWordRun s
  if run.isEmpty then none else some ⟨run⟩

/-- `(\w+)\s*<lit>` where nothing after `<lit>` constrains the input: the
greedy capture backtracks until `<lit>` follows (with whitespace only
possible when the whole run was captured, since `\w` cannot match
whitespace). -/
def capWordBeforeLit (lit : String) (s : List Char) : Option String :=
  let (run, rest) := takeWordRun s
  if run.isEmpty then none
  else
    let n := run.length
    match (List.range n).find? (fun i =>
      let k := n - i
      if k = n then listStartsWith (eatWs0 rest) lit.data
      else listStartsWith (run.drop k) lit.data) with
    | some i => some ⟨run.take (n - i)⟩
    | none => none

/-- `(\w+)\s*(<alt1>|<alt2>|...)` returning capture and matched alternative -/
def capWordBeforeAlts (alts : List String) (s : List Char) :
    Option (String × String) :=
  let (run, rest) := takeWordRun s
  if run.isEmpty then none
  else
    let n := run.length
    let tryAt : Nat → Option String := fun k =>
      if k = n then alts.find? (fun a => listStartsWith (eatWs0 rest) a.data)
      else alts.find? (fun a => listStartsWith (run.drop k) a.data)
    match (List.range n).findSome? (fun i =>
      (tryAt (n - i)).map (fun a => ((⟨run.take (n - i)⟩ : String), a))) with
    | some r => some r
    | none => none

/-- optional group `(<lit>\s*)?` with its captured text passed on; the
matcher backtracks to the absent branch when the continuation fails -/
def optGroupLitWs (lit : String)
    (k : Option String → List Char → Option α) (s : List Char) : Option α :=
  match eatLit lit s with
  | some s1 =>
    let (w, r) := splitWs s1
    match k (some (lit ++ (⟨w⟩ : String))) r with
    | some a => some a
    | none => k none s
  | none => k none s

/-- optional alternation group `(<a1>|<a2>|...)?` -/
def optGroupAlts (alts : List String)
    (k : Option String → List Char → Option α) (s : List Char) : Option α :=
  match alts with
  | [] => k none s
  | a :: rest =>
    match eatLit a s with
    | some s1 =>
      match k (some a) s1 with
      | some r => some r
      | none => optGroupAlts rest k s
    | none => optGroupAlts rest k s

/-- JS `match[3] || match[2] || match[1]` group selection -/
def sel3 (g3 g2 g1 : Option String) : Option String := jsOr (jsOr g3 g2) g1

/-! ### FOLLOW_UP_PATTERNS (src/types/context.ts)

Each `pat_*` embeds one regex of the table; the returned value is
`some ev` on a match, where `ev` is the already-selected
`match[3] || match[2] || match[1]` extracted value. -/

/-- `/show\s*(me\s*)?(the\s*)?(\w+)\s*ones?/i` -/
def pat_show_ones : List Char → Option (Option String) :=
  scanPositions (fun s => do
    let s ← eatLit "show" s
    let s := eatWs0 s
    optGroupLitWs "me" (fun _ s =>
      optGroupLitWs "the" (fun _ s =>
        (capWordBeforeLit "one" s).map (fun w => some w)) s) s)

/-- `/list\s*(the\s*)?(\w+)\s*ones?/i` -/
def pat_list_ones : List Char → Option (Option String) :=
  scanPositions (fun s => do
    let s ← eatLit "list" s
    let s := eatWs0 s
    optGroupLitWs "the" (fun _ s =>
      (capWordBeforeLit "one" s).map (fun w => some w)) s)

/-- `/get\s*(me\s*)?(the\s*)?(\w+)/i` -/
def pat_get_me : List Char → Option (Option String) :=
  scanPositions (fun s => do
    let s ← eatLit "get" s
    let s := eatWs0 s
    optGroupLitWs "me" (fun _ s =>
      optGroupLitWs "the" (fun _ s =>
        (capWord s).map (fun w => some w)) s) s)

/-- `/which\s*(ones?\s*)?(are\s*)?(\w+)/i` -/
def pat_which_are : List Char → Option (Option String) :=
  scanPositions (fun s => do
    let s ← eatLit "which" s
    let s := eatWs0 s
    optGroupAlts ["ones", "one"] (fun _ s =>
      let s := eatWs0 s
      optGroupLitWs "are" (fun _ s =>
        (capWord s).map (fun w => some w)) s) s)

/-- `/הראה\s*(לי\s*)?(את\s*)?(ה)?(\w+)/i` (the extracted value is
`match[3] || match[2] || match[1]`, which never reaches group 4) -/
def pat_show_heb : List Char → Option (Option String) :=
  scanPositions (fun s => do
    let s ← eatLit "הראה" s
    let s := eatWs0 s
    optGroupLitWs "לי" (fun g1 s =>
      optGroupLitWs "את" (fun g2 s =>
        optGroupAlts ["ה"] (fun g3 s =>
          (capWord s).map (fun _ => sel3 g3 g2 g1)) s) s) s)

/-- `/export\s*(them|this|these|it)?(\s*to\s*excel)?/i` -/
def pat_export : List Char → Option (Option String) :=
  scanPositions (fun s => do
    let s ← eatLit "export" s
    let s := eatWs0 s
    optGroupAlts ["them", "this", "these", "it"] (fun g1 s =>
      let (w1, r1) := splitWs s
      let withG2 :=
        match eatLit "to" r1 with
        | some r2 =>
          let (w2, r3) := splitWs r2
          match eatLit "excel" r3 with
          | some _ =>
            some (((⟨w1⟩ : String) ++ "to" ++ (⟨w2⟩ : String) ++ "excel"))
          | none => none
        | none => none
      match withG2 with
      | some g2 => some (sel3 none (some g2) g1)
      | none => some (sel3 none none g1)) s)

/-- `/download/i` -/
def pat_download : List Char → Option (Option String) :=
  scanPositions (fun s => (eatLit "download" s).map (fun _ => none))

/-- `/ייצא/i` -/
def pat_export_heb : List Char → Option (Option String) :=
  scanPositions (fun s => (eatLit "ייצא" s).map (fun _ => none))

/-- `/how\s*many\s*(total|are\s*there)?/i` -/
def pat_how_many : List Char → Option (Option String) :=
  scanPositions (fun s => do
    let s ← eatLit "how" s
    let s := eatWs0 s
    let s ← eatLit "many" s
    let s := eatWs0 s
    match eatLit "total" s with
    | some _ => some (some "total")
    | none =>
      match eatLit "are" s with
      | some r1 =>
        let (w, r2) := splitWs r1
        match eatLit "there" r2 with
        | some _ => some (some ("are" ++ (⟨w⟩ : String) ++ "there"))
        | none => some none
      | none => some none)

/-- `/count\s*(them|all)?/i` -/
def pat_count : List Char → Option (Option String) :=
  scanPositions (fun s => do
    let s ← eatLit "count" s
    let s := eatWs0 s
    optGroupAlts ["them", "all"] (fun g1 _ => some g1) s)

/-- `/כמה/i` -/
def pat_count_heb : List Char → Option (Option String) :=
  scanPositions (fun s => (eatLit "כמה" s).map (fun _ => none))

/-- `/tell\s*me\s*more/i` -/
def pat_tell_more : List Char → Option (Option String) :=
  scanPositions (fun s => do
    let s ← eatLit "tell" s
    let s := eatWs0 s
    let s ← eatLit "me" s
    let s := eatWs0 s
    (eatLit "more" s).map (fun _ => none))

/-- `/more\s*details?/i` -/
def pat_more_details : List Char → Option (Option String) :=
  scanPositions (fun s => do
    let s ← eatLit "more" s
    let s := eatWs0 s
    (eatLit "detail" s).map (fun _ => none))

/-- `/expand/i` -/
def pat_expand : List Char → Option (Option String) :=
  scanPositions (fun s => (eatLit "expand" s).map (fun _ => none))

/-- `/פרטים/i` -/
def pat_details_heb : List Char → Option (Option String) :=
  scanPositions (fun s => (eatLit "פרטים" s).map (fun _ => none))

/-- `/filter\s*(by|where)/i` -/
def pat_filter_by : List Char → Option (Option String) :=
  scanPositions (fun s => do
    let s ← eatLit "filter" s
    let s := eatWs0 s
    match ["by", "where"].find? (fun a => (eatLit a s).isSome) with
    | some g1 => some (some g1)
    | none => none)

/-- `/only\s*(show\s*)?(the\s*)?/i` -/
def pat_only_show : List Char → Option (Option String) :=
  scanPositions (fun s => do
    let s ← eatLit "only" s
    let s := eatWs0 s
    optGroupLitWs "show" (fun g1 s =>
      optGroupLitWs "the" (fun g2 _ =>
        some (sel3 none g2 g1)) s) s)

/-- `/where\s+(\w+)\s*(is|=|equals)/i` (the extracted value is the group-2
operator, by `match[3] || match[2] || match[1]`) -/
def pat_where_is : List Char → Option (Option String) :=
  scanPositions (fun s => do
    let s ← eatLit "where" s
    let s ← eatWs1 s
    (capWordBeforeAlts ["is", "=", "equals"] s).map (fun p => some p.2))

/-- `/link\s*(to\s*)?(this|them|it)?/i` -/
def pat_link_to : List Char → Option (Option String) :=
  scanPositions (fun s => do
    let s ← eatLit "link" s
    let s := eatWs0 s
    optGroupLitWs "to" (fun g1 s =>
      optGroupAlts ["this", "them", "it"] (fun g2 _ =>
        some (sel3 none g2 g1)) s) s)

/-- `/open\s*(in\s*)?clarity/i` -/
def pat_open_clarity : List Char → Option (Option String) :=
  scanPositions (fun s => do
    let s ← eatLit "open" s
    let s := eatWs0 s
    optGroupLitWs "in" (fun g1 s =>
      (eatLit "clarity" s).map (fun _ => g1)) s)

/-- `/url/i` -/
def pat_url : List Char → Option (Option String) :=
  scanPositions (fun s => (eatLit "url" s).map (fun _ => none))

/-- `/לינק/i` -/
def pat_link_heb : List Char → Option (Option String) :=
  scanPositions (fun s => (eatLit "לינק" s).map (fun _ => none))

/-- the ordered pattern table `FOLLOW_UP_PATTERNS` -/
def FOLLOW_UP_PATTERNS :
    List (String × List (List Char → Option (Option String))) :=
  [("showSelected",
    [pat_show_ones, pat_list_ones, pat_get_me, pat_which_are, pat_show_heb]),
   ("export", [pat_export, pat_download, pat_export_heb]),
   ("count", [pat_how_many, pat_count, pat_count_heb]),
   ("details",
    [pat_tell_more, pat_more_details, pat_expand, pat_details_heb]),
   ("filter", [pat_filter_by, pat_only_show, pat_where_is]),
   ("link", [pat_link_to, pat_open_clarity, pat_url, pat_link_heb])]

/-- result of `detectFollowUpIntent` -/
structure FollowUpResult where
  type : Option String
  extractedValue : Option String := none
deriving DecidableEq, Repr

/-- first matching pattern of a family -/
def tryPats : List (List Char → Option (Option String)) → List Char →
    Option (Option String)
  | [], _ => none
  | p :: rest, s =>
    match p s with
    | some ev => some ev
    | none => tryPats rest s

/-- first matching family of the table -/
def firstIntent :
    List (String × List (List Char → Option (Option String))) → List Char →
    Option (String × Option String)
  | [], _ => none
  | (ty, pats) :: rest, s =>
    match tryPats pats s with
    | some ev => some (ty, ev)
    | none => firstIntent rest s

/-- `detectFollowUpIntent` (src/types/context.ts) -/
def detectFollowUpIntent (message : String) : FollowUpResult :=
  let lowerMessage := (strLower message).data
  match firstIntent FOLLOW_UP_PATTERNS lowerMessage with
  | some (ty, ev) => { type := some ty, extractedValue := ev.map strTrim }
  | none => { type := none }

/-! ### Link-request and extraction regexes (AIChatHandler) -/

/-- maximal run of characters satisfying `p` -/
def takeRunP (p : Char → Bool) : List Char → List Char × List Char
  | [] => ([], [])
  | c :: rest =>
    if p c then
      let (w, r) := takeRunP p rest
      (c :: w, r)
    else ([], c :: rest)

/-- case-insensitive literal (the literal is given lower-case; input
characters are lowered before comparison, as under the `/i` flag) -/
def eatLitCI (lit : String) (s : List Char) : Option (List Char) :=
  if listStartsWith ((s.take lit.data.length).map lowerChar) lit.data then
    some (s.drop lit.data.length)
  else none

/-- ordered alternation with full continuation backtracking -/
def altTryCI (alts : List String) (k : List Char → Option α)
    (s : List Char) : Option α :=
  match alts with
  | [] => none
  | a :: rest =>
    match eatLitCI a s with
    | some s1 =>
      match k s1 with
      | some r => some r
      | none => altTryCI rest k s
    | none => altTryCI rest k s

/-- lazy capture `(<charOk>+?)`: the shortest nonempty prefix of characters
satisfying `charOk` whose remainder satisfies `check` -/
def lazyCapture (charOk : Char → Bool) (check : List Char → Bool) :
    List Char → List Char → Option (List Char)
  | _, [] => none
  | acc, c :: rest =>
    if charOk c then
      if check rest then some (c :: acc).reverse
      else lazyCapture charOk check (c :: acc) rest
    else none

/-- a double or single quote -/
def isQuoteChar (c : Char) : Bool := c = '"' || c = sqc

/-- standard object words of the link patterns -/
def STANDARD_OBJECT_WORDS : List String :=
  ["projects", "tasks", "resources", "ideas", "risks", "issues", "timesheets"]

/-- one of the standard object words followed by a `\b` boundary -/
def objWordAt (s : List Char) : Option String :=
  STANDARD_OBJECT_WORDS.find? (fun w =>
    listStartsWith s w.data &&
    (match s.drop w.data.length with
     | [] => true
     | c :: _ => !isWordChar c))

/-- `/link\s+(?:to\s+)?(?:all\s+)?(projects|tasks|resources|ideas|risks|issues|timesheets)\b/i`
(pattern 1 of `handleLinkRequest`, on the lower-cased message) -/
def matchLinkAllObject : List Char → Option String :=
  scanPositions (fun s => do
    let s ← eatLit "link" s
    let s ← eatWs1 s
    let afterAll : List Char → Option String := fun s =>
      match (do
        let s ← eatLit "all" s
        let s ← eatWs1 s
        objWordAt s) with
      | some w => some w
      | none => objWordAt s
    match (do
      let s ← eatLit "to" s
      let s ← eatWs1 s
      afterAll s) with
    | some w => some w
    | none => afterAll s)

/-- tail `["']?(?:\s+project)?$` of pattern 3, at the remainder after the
lazy capture -/
def linkTailNoQuote (rem : List Char) : Bool :=
  rem = [] ||
  (match eatWs1 rem with
   | some r1 =>
     match eatLit "project" r1 with
     | some r2 => r2 = []
     | none => false
   | none => false)

/-- tail of pattern 3 including the optional closing quote -/
def linkTailOk (rem : List Char) : Bool :=
  (match rem with
   | c :: r => isQuoteChar c && linkTailNoQuote r
   | [] => false) ||
  linkTailNoQuote rem

/-- `.` of a JS regex (anything but a line terminator) -/
def dotChar (c : Char) : Bool := c.toNat ≠ 10 && c.toNat ≠ 13

/-- `/link\s+(?:to\s+)(?:project\s+)?["']?(.+?)["']?(?:\s+project)?$/i`
(pattern 3 of `handleLinkRequest`): returns the lazy capture -/
def matchLinkTo : List Char → Option String :=
  scanPositions (fun s => do
    let s ← eatLit "link" s
    let s ← eatWs1 s
    let s ← eatLit "to" s
    let s ← eatWs1 s
    let afterQuote : List Char → Option String := fun s =>
      let withQ :=
        match s with
        | c :: r =>
          if isQuoteChar c then
            (lazyCapture dotChar linkTailOk [] r).map
              (fun cap => ((⟨cap⟩ : String)))
          else none
        | [] => none
      match withQ with
      | some cap => some cap
      | none =>
        (lazyCapture dotChar linkTailOk [] s).map
          (fun cap => ((⟨cap⟩ : String)))
    match (do
      let s ← eatLit "project" s
      let s ← eatWs1 s
      afterQuote s) with
    | some cap => some cap
    | none => afterQuote s)

/-- `recordName.replace(/\s*projects?\s*$/i, '')`: remove the leftmost
suffix match -/
def projSuffixAt (s : List Char) : Bool :=
  let r := eatWs0 s
  match eatLit "project" r with
  | some r2 =>
    (match eatLit "s" r2 with
     | some r3 => eatWs0 r3 = []
     | none => false) || eatWs0 r2 = []
  | none => false

/-- strip the `\s*projects?\s*$` suffix (leftmost match) -/
def stripProjSuffix : List Char → List Char
  | [] => []
  | c :: rest =>
    if projSuffixAt (c :: rest) then [] else c :: stripProjSuffix rest

/-- `/(?:in|for|of|under)\s+(?:project\s+)?["']?([a-zA-Z0-9_-]+)["']?/i`
(`extractProjectName`); the capture preserves the original case -/
def extractProjectNameL : List Char → Option String :=
  scanPositions (fun s =>
    altTryCI ["in", "for", "of", "under"] (fun s => do
      let s ← eatWs1 s
      let afterQuote : List Char → Option String := fun s =>
        let s := match s with
          | c :: r => if isQuoteChar c then r else c :: r
          | [] => []
        let (run, _) := takeRunP (fun c => isWordChar c || c = '-') s
        if run.isEmpty then none else some ((⟨run⟩ : String))
      match (do
        let s ← eatLitCI "project" s
        let s ← eatWs1 s
        afterQuote s) with
      | some r => some r
      | none => afterQuote s) s)

/-- `extractProjectName` (AIChatHandler) -/
def extractProjectName (message : String) : Option String :=
  extractProjectNameL message.data

/-- tail `["']?(?:\s+set|\s+to|$)` of the `extractRecordName` regex -/
def recTailNoQuote (rem : List Char) : Bool :=
  (match eatWs1 rem with
   | some r1 => (eatLit "set" r1).isSome || (eatLit "to" r1).isSome
   | none => false) || rem = []

/-- the same tail including the optional closing quote -/
def recTailOk (rem : List Char) : Bool :=
  (match rem with
   | c :: r => isQuoteChar c && recTailNoQuote r
   | [] => false) ||
  recTailNoQuote rem

/-- `/(?:named?|called|project|task|record)\s+["']?([^"']+?)["']?(?:\s+set|\s+to|$)/i`
(`extractRecordName`) -/
def extractRecordNameL : List Char → Option String :=
  scanPositions (fun s =>
    altTryCI ["named", "name", "called", "project", "task", "record"]
      (fun s => do
        let s ← eatWs1 s
        let afterQuote : List Char → Option String := fun s =>
          let withQ :=
            match s with
            | c :: r =>
              if isQuoteChar c then
                (lazyCapture (fun c => !isQuoteChar c) recTailOk [] r).map
                  (fun cap => ((⟨cap⟩ : String)))
              else none
            | [] => none
          match withQ with
          | some cap => some cap
          | none =>
            (lazyCapture (fun c => !isQuoteChar c) recTailOk [] s).map
              (fun cap => ((⟨cap⟩ : String)))
        afterQuote s) s)

/-- `extractRecordName` (AIChatHandler): `match?.[1]?.trim()` -/
def extractRecordName (message : String) : Option String :=
  (extractRecordNameL message.data).map strTrim

/-- tail `["']?(?:\s+in|\s+for|$)` of the create-name regex -/
def createTailNoQuote (rem : List Char) : Bool :=
  (match eatWs1 rem with
   | some r1 => (eatLit "in" r1).isSome || (eatLit "for" r1).isSome
   | none => false) || rem = []

/-- the same tail including the optional closing quote -/
def createTailOk (rem : List Char) : Bool :=
  (match rem with
   | c :: r => isQuoteChar c && createTailNoQuote r
   | [] => false) ||
  createTailNoQuote rem

/-- `/(?:named?|called)\s+["']?([^"']+?)["']?(?:\s+in|\s+for|$)/i`
(`executeCreate` name extraction) -/
def extractCreateNameL : List Char → Option String :=
  scanPositions (fun s =>
    altTryCI ["named", "name", "called"]
      (fun s => do
        let s ← eatWs1 s
        let afterQuote : List Char → Option String := fun s =>
          let withQ :=
            match s with
            | c :: r =>
              if isQuoteChar c then
                (lazyCapture (fun c => !isQuoteChar c) createTailOk [] r).map
                  (fun cap => ((⟨cap⟩ : String)))
              else none
            | [] => none
          match withQ with
          | some cap => some cap
          | none =>
            (lazyCapture (fun c => !isQuoteChar c) createTailOk [] s).map
              (fun cap => ((⟨cap⟩ : String)))
        afterQuote s) s)

/-- `endpoint.replace(/limit=\d+/, m => min(parseInt(...), 500))`
(first occurrence only) -/
def replaceLimitCapL : List Char → List Char
  | [] => []
  | c :: rest =>
    match eatLit "limit=" (c :: rest) with
    | some r =>
      let (digits, r2) := takeRunP isDigitChar r
      if digits.isEmpty then c :: replaceLimitCapL rest
      else
        ("limit=" ++ toString (min (digitsToNat digits) 500) : String).data
          ++ r2
    | none => c :: replaceLimitCapL rest

/-- limit-capping rewrite of an endpoint (`executeQuery`) -/
def replaceLimitCap (endpoint : String) : String := ⟨replaceLimitCapL endpoint.data⟩

/-- `/\/projects\/\d+/.test(endpoint)` -/
def hasProjectsIdSeg (endpoint : String) : Bool :=
  (scanPositions (fun l => do
    let r ← eatLit "/projects/" l
    match r with
    | c :: _ => if isDigitChar c then some () else none
    | [] => none) endpoint.data).isSome

/-- `endpoint.replace(/\/projects\/[^/]+\//, "/projects/<id>/")`
(first occurrence) -/
def replaceProjectsSeg (endpointId : String) : List Char → List Char
  | [] => []
  | c :: rest =>
    match (do
      let r ← eatLit "/projects/" (c :: rest)
      let (seg, r2) := takeRunP (fun c => c ≠ '/') r
      if seg.isEmpty then none
      else
        match r2 with
        | '/' :: r3 => some (("/projects/" ++ endpointId ++ "/" : String).data ++ r3)
        | _ => none) with
    | some res => res
    | none => c :: replaceProjectsSeg endpointId rest

/-- `name.replace(/[^a-zA-Z0-9]/g, "_").toLowerCase()` -/
def sanitizeCode (s : String) : String :=
  ⟨s.data.map (fun c =>
    if (65 ≤ c.toNat ∧ c.toNat ≤ 90) ∨ (97 ≤ c.toNat ∧ c.toNat ≤ 122) ∨
       isDigitChar c then lowerChar c
    else '_')⟩

/-- `s.replace(/'/g, "''")` (filter-value escaping) -/
def escapeQuotes (s : String) : String :=
  ⟨s.data.foldr (fun c acc => if c = sqc then sqc :: sqc :: acc else c :: acc) []⟩

/-- `/^(hi|hello|hey|help|◊©◊ú◊ï◊ù|◊î◊ô◊ô)[\s!.?]*$/i.test(message.trim())`
(the greeting short-circuit of `handleMessage`) -/
def isGreetingMessage (message : String) : Bool :=
  let t := (strLower (strTrim message)).data
  ["hi", "hello", "hey", "help", "◊©◊ú◊ï◊ù", "◊î◊ô◊ô"].any (fun g =>
    match eatLit g t with
    | some rest => rest.all (fun c => jsWs c || c = '!' || c = '.' || c = '?')
    | none => false)

/-! ## DeepLinkService (src/services/DeepLinkService.ts) -/

namespace DeepLinkService

/-- `s.endsWith(p)` -/
def strEndsWith (s p : String) : Bool :=
  listStartsWith s.data.reverse p.data.reverse

/-- drop the last `n` characters -/
def strDropRight (n : Nat) (s : String) : String :=
  ⟨s.data.take (s.data.length - n)⟩

/-- the constructor's base-URL normalization:
`.replace(/\/ppm\/rest\/v1\/?$/, "").replace(/\/$/, "")` -/
def stripBase (clarityBaseUrl : String) : String :=
  let s :=
    if strEndsWith clarityBaseUrl "/ppm/rest/v1/" then
      strDropRight 13 clarityBaseUrl
    else if strEndsWith clarityBaseUrl "/ppm/rest/v1" then
      strDropRight 12 clarityBaseUrl
    else clarityBaseUrl
  if strEndsWith s "/" then strDropRight 1 s else s

/-- unreserved characters of `encodeURIComponent` -/
def uriUnreserved (c : Char) : Bool :=
  (65 ≤ c.toNat ∧ c.toNat ≤ 90) || (97 ≤ c.toNat ∧ c.toNat ≤ 122) ||
  isDigitChar c || c = '-' || c = '_' || c = '.' || c = '!' || c = '~' ||
  c = '*' || c = sqc || c = '(' || c = ')'

/-- UTF-8 bytes of a code point -/
def utf8Bytes (c : Char) : List Nat :=
  let n := c.toNat
  if n < 128 then [n]
  else if n < 2048 then [192 + n / 64, 128 + n % 64]
  else if n < 65536 then [224 + n / 4096, 128 + (n / 64) % 64, 128 + n % 64]
  else [240 + n / 262144, 128 + (n / 4096) % 64, 128 + (n / 64) % 64,
        128 + n % 64]

/-- an upper-case hex digit -/
def hexDigit (n : Nat) : Char :=
  if n < 10 then Char.ofNat (48 + n) else Char.ofNat (55 + n)

/-- `encodeURIComponent` -/
def encodeURIComponent (s : String) : String :=
  ⟨s.data.foldr (fun c acc =>
    if uriUnreserved c then c :: acc
    else (utf8Bytes c).foldr
      (fun b acc2 => '%' :: hexDigit (b / 16) :: hexDigit (b % 16) :: acc2)
      acc) []⟩

/-- `isCustomObject` -/
def isCustomObject (objectType : String) : Bool :=
  strStartsWith (strLower objectType) "cust"

/-- the standard-object path map of `generateListLink` -/
def pathMap : List (String × String) :=
  [("projects", "projects/common"), ("tasks", "tasks/common"),
   ("resources", "resources/common"), ("ideas", "ideas/common"),
   ("risks", "risks/common"), ("issues", "issues/common"),
   ("timesheets", "timesheets/common")]

/-- `generateListLink` (`base` is the already-normalized base URL) -/
def generateListLink (base objectType : String) : String :=
  if isCustomObject objectType then
    base ++ "/pm/#/customobjects/" ++ objectType ++ "/common"
  else
    let path := (pathMap.lookup (strLower objectType)).getD
      (objectType ++ "/common")
    base ++ "/pm/#/" ++ path

/-- the singular map of `generateRecordLink` -/
def singularMap : List (String × String) :=
  [("tasks", "task"), ("resources", "resource"), ("ideas", "idea"),
   ("risks", "risk"), ("issues", "issue")]

/-- `generateRecordLink` -/
def generateRecordLink (base objectType recordId tab : String) : String :=
  if isCustomObject objectType then
    base ++ "/pm/#/customobjects/" ++ objectType ++ "/" ++ recordId
  else if strLower objectType = "projects" then
    base ++ "/pm/#/project/" ++ recordId ++ "/" ++ tab
  else
    let singular := (singularMap.lookup (strLower objectType)).getD objectType
    base ++ "/pm/#/" ++ singular ++ "/" ++ recordId ++ "/" ++ tab

/-- `generateFilteredLink` -/
def generateFilteredLink (base objectType field value : String) : String :=
  generateListLink base objectType ++ "?filter=" ++
    encodeURIComponent (field ++ "=" ++ value)

/-- `generateMultiFilterLink` -/
def generateMultiFilterLink (base objectType : String)
    (filters : List (String × String)) : String :=
  generateListLink base objectType ++ "?filter=" ++
    encodeURIComponent
      (strJoin "&" (filters.map (fun p => p.1 ++ "=" ++ p.2)))

end DeepLinkService

/-! ## SuggestionService (src/services/SuggestionService.ts) -/

/-- `Suggestion` -/
structure Suggestion where
  text : String
  emoji : String
  action : String
  priority : Nat
deriving DecidableEq, Repr

/-- stable insertion of `x` into an already-sorted list: `x` goes after
every element `y` with `le y x` (models the stability of
`Array.prototype.sort`) -/
def sortInsert (le : α → α → Bool) (x : α) : List α → List α
  | [] => [x]
  | y :: ys => if le y x then y :: sortInsert le x ys else x :: y :: ys

/-- a stable comparison sort (`Array.prototype.sort(cmp)`, which is
required to be stable): left-to-right stable insertion -/
def stableSort (le : α → α → Bool) (l : List α) : List α :=
  l.foldl (fun acc x => sortInsert le x acc) []

namespace SuggestionService

/-- `getAnalyzeSuggestions` -/
def getAnalyzeSuggestions (context : ConversationContext) : List Suggestion :=
  let base : List Suggestion :=
    match context.lastQuery with
    | some lastQuery =>
      if lastQuery.chartData.isSome && jsTruthy lastQuery.groupByField then
        let chartValues :=
          match lastQuery.chartData, lastQuery.groupByField with
          | some cd, some f => (cd.lookup f).getD []
          | _, _ => []
        let top :=
          match chartValues.head? with
          | some b =>
            [{ text := "Show me the \"" ++ b.label ++ "\" ones",
               emoji := "🔍", action := "drilldown", priority := 100 }]
          | none => []
        let second :=
          match chartValues.get? 1 with
          | some b =>
            [{ text := "Show me the \"" ++ b.label ++ "\" ones",
               emoji := "🔍", action := "drilldown", priority := 90 }]
          | none => []
        top ++ second ++
          [{ text := "Group by a different field", emoji := "📊",
             action := "analyze", priority := 70 }]
      else []
    | none => []
  base ++
    [{ text := "Export to Excel", emoji := "📥", action := "export",
       priority := 60 },
     { text := "Get a link to this view", emoji := "🔗", action := "link",
       priority := 50 }]

/-- `getQuerySuggestions` -/
def getQuerySuggestions (context : ConversationContext) : List Suggestion :=
  match context.lastQuery with
  | some lastQuery =>
    [{ text := "Show distribution by status", emoji := "📊",
       action := "analyze", priority := 100 },
     { text := "How many total?", emoji := "🔢", action := "count",
       priority := 80 },
     { text := "Filter by specific criteria", emoji := "🔍",
       action := "filter", priority := 70 },
     { text := "Create a new " ++
         ((jsOr (some (strDropRight 1 lastQuery.objectLabel))
            (some "record")).getD "record"),
       emoji := "➕", action := "create", priority := 50 }]
  | none => []
where
  strDropRight (n : Nat) (s : String) : String :=
    ⟨s.data.take (s.data.length - n)⟩

/-- `getCreateSuggestions` -/
def getCreateSuggestions (context : ConversationContext) : List Suggestion :=
  let lbl := match context.lastQuery with
    | some q => (jsOr (some q.objectLabel) (some "records")).getD "records"
    | none => "records"
  [{ text := "Create another one", emoji := "➕", action := "create",
     priority := 100 },
   { text := "List all " ++ lbl, emoji := "📋", action := "query",
     priority := 80 },
   { text := "Show distribution", emoji := "📊", action := "analyze",
     priority := 60 }]

/-- `getModifySuggestions` -/
def getModifySuggestions (context : ConversationContext) : List Suggestion :=
  let lbl := match context.lastQuery with
    | some q => (jsOr (some q.objectLabel) (some "records")).getD "records"
    | none => "records"
  [{ text := "List all " ++ lbl, emoji := "📋", action := "query",
     priority := 100 },
   { text := "Show distribution", emoji := "📊", action := "analyze",
     priority := 80 },
   { text := "Create a new one", emoji := "➕", action := "create",
     priority := 60 }]

/-- `getDefaultSuggestions` -/
def getDefaultSuggestions (_context : ConversationContext) : List Suggestion :=
  [{ text := "Show project distribution by status", emoji := "📊",
     action := "analyze", priority := 100 },
   { text := "List all projects", emoji := "📋", action := "query",
     priority := 80 },
   { text := "How many tasks in the system?", emoji := "🔢",
     action := "count", priority := 60 },
   { text := "List custom objects", emoji := "📦", action := "describe",
     priority := 40 }]

/-- `generateSuggestions`: dispatch on the action, then a stable descending
sort by priority (`(a, b) => b.priority - a.priority`) capped at
`maxSuggestions`. -/
def generateSuggestions (context : ConversationContext) (action : String)
    (maxSuggestions : Nat := 4) : List Suggestion :=
  let suggestions :=
    if action = "analyze" then getAnalyzeSuggestions context
    else if action = "query" then getQuerySuggestions context
    else if action = "create" then getCreateSuggestions context
    else if action = "update" ∨ action = "delete" then
      getModifySuggestions context
    else getDefaultSuggestions context
  (stableSort (fun a b => b.priority ≤ a.priority) suggestions).take
    maxSuggestions

/-- a clickable-button rendering of a suggestion -/
structure SuggestionButton where
  label : String
  value : String
deriving DecidableEq, Repr

/-- `formatSuggestionsAsButtons` -/
def formatSuggestionsAsButtons (suggestions : List Suggestion) :
    List SuggestionButton :=
  suggestions.map (fun s =>
    { label := s.emoji ++ " " ++ s.text, value := s.text })

end SuggestionService

/-! ## The effect model

`Eff α` runs against a handler state and yields an exception-or-value, the
updated state, and the log of remote calls attempted.  `Env` packages the
collaborators (Clarity REST API, metadata service, external reasoning
service, tool registry) as oracles, together with the frozen clock and
configuration. -/

/-- `ObjectMetadata` (src/types/clarity.ts) -/
structure AttributeMetadata where
  apiName : String
  displayName : String
  dataType : String
  isRequired : Bool := false
  isReadOnly : Bool := false
  isLookup : Bool := false
  lookupType : Option String := none
deriving DecidableEq, Repr

/-- `ObjectMetadata` (src/types/clarity.ts) -/
structure ObjectMetadata where
  resourceName : String
  label : String
  pluralLabel : String
  isCustom : Bool
  attributes : List AttributeMetadata
deriving DecidableEq, Repr

/-- a custom object as returned by `metadataService.getCustomObjects` -/
structure CustomObject where
  label : String
  resourceName : String
deriving DecidableEq, Repr

/-- tool-availability flags (`toolRegistry.getCapabilities`; the registry
itself is an out-of-scope collaborator, spec §6) -/
structure Capabilities where
  hasProjects : Bool := true
  hasTasks : Bool := true
  hasResources : Bool := true
  hasCustomObjects : Bool := true
deriving DecidableEq, Repr

/-- the body of a Clarity REST response as used by the handler -/
structure ApiResult where
  results : Option (List RecordJson) := none
  totalCount : Option Int := none
  internalId : Option Int := none
deriving DecidableEq, Repr

/-- `APIPlan` (AIChatHandler).  `action` stays a plain string because
`JSON.parse` does not validate the union type. -/
structure APIPlan where
  action : String
  objectType : String
  method : String
  endpoint : String
  queryParams : Option (List (String × String)) := none
  body : Option (List (String × JsValue)) := none
  groupByField : Option String := none
  filterField : Option String := none
  filterValue : Option String := none
  explanation : String := ""
deriving DecidableEq, Repr

/-- the data interpolated into the reasoning-service system prompt
(`getAIPlan`); the textual serialization of the prompt and the JSON
extraction of the reply are abstracted into the oracle `Env.reasoning`. -/
structure ReasoningRequest where
  contextSummary : String
  objectType : String
  objectLabel : String
  objectList : List String
  customObjectList : List String
  fieldHint : String
  groupableFields : List String
  fieldMappings : List (String × String)
  userMessage : String
deriving DecidableEq, Repr

/-- one attempted remote call -/
inductive RemoteCall where
  /-- `client.get(endpoint)` -/
  | api (endpoint : String)
  /-- `client.post(endpoint, body)` -/
  | apiPost (endpoint : String)
  /-- `client.patch(endpoint, body)` -/
  | apiPatch (endpoint : String)
  /-- `client.delete(endpoint)` -/
  | apiDelete (endpoint : String)
  /-- `anthropic.messages.create` (the external reasoning service) -/
  | reasoning
  /-- a metadata-service fetch -/
  | metadata (what : String)
deriving DecidableEq, Repr

/-- the collaborators and configuration of one request -/
structure Env where
  now : Int
  clarityBase : String
  capabilities : Capabilities
  discoverAllObjects : Except String (List String)
  getCustomObjects : Except String (List CustomObject)
  fetchObjectMetadata : String → Except String ObjectMetadata
  getObjectLabel : String → Except String String
  reasoning : ReasoningRequest → Except String APIPlan
  apiGet : String → Except String ApiResult
  apiPost : String → List (String × JsValue) → Except String ApiResult
  apiPatch : String → List (String × JsValue) → Except String ApiResult
  apiDelete : String → Except String ApiResult

/-- the mutable fields of `AIChatHandler` plus the `ContextService` store -/
structure HandlerState where
  discoveredObjects : List String
  metadataCache : String → Option ObjectMetadata
  contexts : ContextStore

/-- the effect carrier -/
def Eff (α : Type) :=
  HandlerState → Except String α × HandlerState × List RemoteCall

namespace Eff

/-- monad structure: sequencing threads the state and concatenates logs;
errors short-circuit -/
protected def pure (a : α) : Eff α := fun s => (Except.ok a, s, [])

/-- bind -/
protected def bind (m : Eff α) (f : α → Eff β) : Eff β := fun s =>
  match m s with
  | (Except.ok a, s1, l1) =>
    match f a s1 with
    | (r, s2, l2) => (r, s2, l1 ++ l2)
  | (Except.error e, s1, l1) => (Except.error e, s1, l1)

instance : Monad Eff where
  pure := Eff.pure
  bind := Eff.bind

/-- read the handler state -/
def get : Eff HandlerState := fun s => (Except.ok s, s, [])

/-- replace the handler state -/
def set (s1 : HandlerState) : Eff Unit := fun _ => (Except.ok (), s1, [])

/-- append one remote call to the log -/
def tell (c : RemoteCall) : Eff Unit := fun s => (Except.ok (), s, [c])

/-- `throw new Error(e)` -/
def throwErr (e : String) : Eff α := fun s => (Except.error e, s, [])

/-- lift an oracle outcome -/
def liftExcept : Except String α → Eff α
  | Except.ok a => Eff.pure a
  | Except.error e => throwErr e

/-- JS `try`/`catch`: state changes and logged calls made before the throw
are kept -/
def tryCatch (m : Eff α) (h : String → Eff α) : Eff α := fun s =>
  match m s with
  | (Except.error e, s1, l1) =>
    match h e s1 with
    | (r, s2, l2) => (r, s2, l1 ++ l2)
  | ok => ok

/-- run a pure ContextService operation on the store -/
def onContexts (f : ContextStore → α × ContextStore) : Eff α := fun s =>
  let (a, c1) := f s.contexts
  (Except.ok a, { s with contexts := c1 }, [])

/-- run a store-only mutation -/
def modifyContexts (f : ContextStore → ContextStore) : Eff Unit := fun s =>
  (Except.ok (), { s with contexts := f s.contexts }, [])

end Eff

/-! ## Metadata service and Clarity client wrappers -/

/-- `metadataService.getCustomObjects()` (collaborator call, logged) -/
def getCustomObjectsM (env : Env) : Eff (List CustomObject) := do
  Eff.tell (RemoteCall.metadata "getCustomObjects")
  Eff.liftExcept env.getCustomObjects

/-- `metadataService.getObjectLabel(objectType)` (collaborator call, logged) -/
def getObjectLabelM (env : Env) (objectType : String) : Eff String := do
  Eff.tell (RemoteCall.metadata ("getObjectLabel:" ++ objectType))
  Eff.liftExcept (env.getObjectLabel objectType)

/-- `client.get(endpoint)`.  The per-request retry behavior of
`ClarityApiClient.request` is modelled separately (`ClarityApiClient.request`
below); at the handler level the net outcome of a request is the oracle
`Env.apiGet`. -/
def clientGet (env : Env) (endpoint : String) : Eff ApiResult := do
  Eff.tell (RemoteCall.api endpoint)
  Eff.liftExcept (env.apiGet endpoint)

/-- `client.post(endpoint, body)` -/
def clientPost (env : Env) (endpoint : String) (body : List (String × JsValue)) :
    Eff ApiResult := do
  Eff.tell (RemoteCall.apiPost endpoint)
  Eff.liftExcept (env.apiPost endpoint body)

/-- `client.patch(endpoint, body)` -/
def clientPatch (env : Env) (endpoint : String)
    (body : List (String × JsValue)) : Eff ApiResult := do
  Eff.tell (RemoteCall.apiPatch endpoint)
  Eff.liftExcept (env.apiPatch endpoint body)

/-- `client.delete(endpoint)` -/
def clientDelete (env : Env) (endpoint : String) : Eff ApiResult := do
  Eff.tell (RemoteCall.apiDelete endpoint)
  Eff.liftExcept (env.apiDelete endpoint)

/-- `PRIORITY_FIELDS` (src/src/constants.ts) -/
def PRIORITY_FIELDS : List String :=
  ["status", "name", "code", "manager", "owner", "priority", "department",
   "startDate", "finishDate", "percentComplete"]

/-- `PRIORITY_FIELDS.indexOf(apiName)`: the 0-based position, or `none`
for the JS `-1` -/
def priorityIndex (apiName : String) : Option Nat :=
  PRIORITY_FIELDS.findIdx? (fun p => p = apiName)

/-- `MetadataService.getGroupableFields` (src/extension/content.js): keep
an attribute unless its apiName starts with an underscore (except
`_internalId`), it is read-only and not a lookup, or its data type is
outside {STRING, LOOKUP, BOOLEAN, NUMBER, INTEGER} and it is not a lookup;
then stable-sort by the comparator: both on `PRIORITY_FIELDS` — by
position; exactly one on it — that one first; otherwise lookups first,
then by display name (`localeCompare` modelled as the string order). -/
def getGroupableFields (md : ObjectMetadata) : List AttributeMetadata :=
  let validTypes := ["STRING", "LOOKUP", "BOOLEAN", "NUMBER", "INTEGER"]
  let keep := md.attributes.filter (fun attr =>
    !(strStartsWith attr.apiName "_" && attr.apiName ≠ "_internalId") &&
    !(attr.isReadOnly && !attr.isLookup) &&
    !(!(validTypes.contains attr.dataType) && !attr.isLookup))
  stableSort (fun a b =>
    match priorityIndex a.apiName, priorityIndex b.apiName with
    | some pa, some pb => pa ≤ pb
    | some _, none => true
    | none, some _ => false
    | none, none =>
      if a.isLookup && !b.isLookup then true
      else if !a.isLookup && b.isLookup then false
      else a.displayName ≤ b.displayName) keep

/-! ## AIChatHandler (src/unnamed/part_000) -/

namespace AIChatHandler

/-- `ChartData.fieldMetadata` entry -/
structure FieldMeta where
  displayName : String
  dataType : String
deriving DecidableEq, Repr

/-- `ChartData` -/
structure ChartData where
  groupableFields : List String
  chartData : List (String × List ChartBucket)
  fieldMetadata : List (String × FieldMeta)
  chartType : Option String := none
  drillDownEnabled : Option Bool := none
  objectType : Option String := none
  groupByField : Option String := none
deriving DecidableEq, Repr

/-- `AIResponse.debug` -/
structure DebugInfo where
  aiPlan : Option String := none
  apiCalls : Option (List String) := none
  context : Option String := none
deriving DecidableEq, Repr

/-- `AIResponse` -/
structure AIResponse where
  success : Bool
  reply : String
  chartData : Option ChartData
  timestamp : Int
  suggestions : Option (List SuggestionService.SuggestionButton) := none
  deepLink : Option String := none
  debug : Option DebugInfo := none
deriving DecidableEq, Repr

/-- `Omit<AIResponse, "timestamp" | "debug" | "suggestions">`
(the return type of `executePlan`) -/
structure ExecResponse where
  success : Bool
  reply : String
  chartData : Option ChartData
deriving DecidableEq, Repr

/-- truthiness of a JS value -/
def jsValTruthy : Option JsValue → Bool
  | none => false
  | some JsValue.vNull => false
  | some (JsValue.vStr s) => s ≠ ""
  | some (JsValue.vNum n) => n ≠ 0
  | some (JsValue.vBool b) => b
  | some (JsValue.vObj _ _ _) => true

/-- `formatFieldValue` -/
def formatFieldValue : Option JsValue → String
  | none => ""
  | some JsValue.vNull => ""
  | some (JsValue.vObj d c j) => d.getD (c.getD j)
  | some (JsValue.vStr s) => s
  | some (JsValue.vNum n) => toString n
  | some (JsValue.vBool b) => if b then "true" else "false"

/-- `discoverObjects` -/
def discoverObjects (env : Env) : Eff Unit := do
  Eff.tell (RemoteCall.metadata "discoverAllObjects")
  let objs ← Eff.liftExcept env.discoverAllObjects
  let s ← Eff.get
  Eff.set { s with discoveredObjects := objs }

/-- `getObjectMetadata` (fetch-on-miss through the handler cache) -/
def getObjectMetadata (env : Env) (objectType : String) : Eff ObjectMetadata := do
  let s ← Eff.get
  match s.metadataCache objectType with
  | some md => Eff.pure md
  | none => do
    Eff.tell (RemoteCall.metadata ("getObjectMetadata:" ++ objectType))
    let md ← Eff.liftExcept (env.fetchObjectMetadata objectType)
    let s1 ← Eff.get
    Eff.set { s1 with metadataCache := fupdate s1.metadataCache objectType md }
    Eff.pure md

/-- first-char capitalization (`s.charAt(0).toUpperCase() + s.slice(1)`) -/
def capFirst (s : String) : String :=
  match s.data with
  | [] => ""
  | c :: rest =>
    ⟨(if 97 ≤ c.toNat ∧ c.toNat ≤ 122 then Char.ofNat (c.toNat - 32) else c)
      :: rest⟩

/-- `s.slice(0, -1)` -/
def strDropLast (s : String) : String := ⟨s.data.dropLast⟩

/-- the standard objects of `detectTargetObject` -/
def standardObjects : List String :=
  ["projects", "tasks", "resources", "ideas", "risks", "issues", "timesheets"]

/-- the context-reference trigger phrases of `detectTargetObject` -/
def contextTriggers : List String :=
  ["the object", "this object", "that object", "it", "this", "◊î◊ê◊ï◊ë◊ô◊ô◊ß◊ò",
   "◊¢◊ú◊ô◊ï", "◊ê◊ï◊™◊ï", "◊î◊ñ◊î", "◊¢◊ï◊ì ◊†◊™◊ï◊†◊ô◊ù", "more data", "more info",
   "◊¢◊ï◊ì ◊û◊ô◊ì◊¢", "describe", "fields", "◊©◊ì◊ï◊™", "◊™◊ê◊®"]

/-- `hasObjectMention` -/
def hasObjectMention (message : String) (customObjects : List CustomObject) :
    Bool :=
  let stdWithSingulars :=
    ["projects", "tasks", "resources", "ideas", "risks", "issues",
     "timesheets", "project", "task", "resource", "idea", "risk", "issue",
     "timesheet"]
  stdWithSingulars.any (fun obj => strIncludes message obj) ||
  customObjects.any (fun obj =>
    strIncludes message (strLower obj.label) ||
    strIncludes message (strLower obj.resourceName))

/-- a resolved target object -/
structure TargetObject where
  objectType : String
  label : String
deriving DecidableEq, Repr

/-- `detectTargetObject` -/
def detectTargetObject (env : Env) (message : String) (sessionId : String) :
    Eff (Option TargetObject) := do
  let lowerMessage := strLower message
  let customObjects ← getCustomObjectsM env
  match customObjects.find? (fun obj =>
    strIncludes lowerMessage (strLower obj.label) ||
    strIncludes lowerMessage (strLower obj.resourceName)) with
  | some obj => Eff.pure (some { objectType := obj.resourceName, label := obj.label })
  | none =>
  match standardObjects.find? (fun obj =>
    strIncludes lowerMessage obj || strIncludes lowerMessage (strDropLast obj)) with
  | some obj => Eff.pure (some { objectType := obj, label := capFirst obj })
  | none => do
  let hasContextReference :=
    contextTriggers.any (fun trigger => strIncludes lowerMessage trigger)
  if hasContextReference || !hasObjectMention lowerMessage customObjects then do
    let context ← Eff.onContexts (fun s => ContextService.getContext s sessionId)
    match context.lastQuery with
    | some q =>
      if q.objectType ≠ "" ∧ q.objectLabel ≠ "" then
        Eff.pure (some { objectType := q.objectType, label := q.objectLabel })
      else Eff.pure (some { objectType := "projects", label := "Projects" })
    | none => Eff.pure (some { objectType := "projects", label := "Projects" })
  else
    Eff.pure (some { objectType := "projects", label := "Projects" })

/-- the field-hint scan of `getAIPlan`: the first attribute whose display
name (case-sensitively or case-insensitively) or apiName
(case-insensitively) occurs in the user message; the loop breaks at the
first match, so the result is that attribute's apiName (the empty string
when nothing matches, mirroring the `''` sentinel). -/
def findFieldHint (userMessage : String) (attrs : List AttributeMetadata) :
    String :=
  let userLower := strLower userMessage
  match attrs.find? (fun attr =>
    strIncludes userMessage attr.displayName ||
    strIncludes userLower (strLower attr.displayName) ||
    strIncludes userLower (strLower attr.apiName)) with
  | some attr => attr.apiName
  | none => ""

/-- `getAIPlan`: resolve the target object, load its metadata, pre-process
the field hint, compose the reasoning request, call the external reasoning
service, and force the hinted field onto `analyze` plans. -/
def getAIPlan (env : Env) (userMessage : String)
    (context : ConversationContext) : Eff APIPlan := do
  let targetObject ← detectTargetObject env userMessage context.sessionId
  let objectType := (targetObject.map (fun t => t.objectType)).getD "projects"
  let objectLabel := (targetObject.map (fun t => t.label)).getD "Projects"
  let targetMetadata ← getObjectMetadata env objectType
  let customObjects ← getCustomObjectsM env
  let s ← Eff.get
  let objectList := s.discoveredObjects.take 50
  let customObjectList :=
    customObjects.map (fun o => o.label ++ " (" ++ o.resourceName ++ ")")
  let foundFieldApiName := findFieldHint userMessage targetMetadata.attributes
  let groupableFields := getGroupableFields targetMetadata
  let groupableList := (groupableFields.take 50).map
    (fun a => "\"" ++ a.apiName ++ "\" (" ++ a.displayName ++ ")")
  let allFieldMappings :=
    (targetMetadata.attributes.filter (fun a =>
      !strStartsWith a.apiName "_" || a.apiName = "_internalId")).map
      (fun a => (a.displayName, a.apiName))
  let contextSummary ←
    Eff.onContexts (fun st => ContextService.getContextSummary st context.sessionId)
  let req : ReasoningRequest :=
    { contextSummary := contextSummary, objectType := objectType,
      objectLabel := objectLabel, objectList := objectList,
      customObjectList := customObjectList, fieldHint := foundFieldApiName,
      groupableFields := groupableList, fieldMappings := allFieldMappings,
      userMessage := userMessage }
  Eff.tell RemoteCall.reasoning
  let plan ← Eff.liftExcept (env.reasoning req)
  let plan :=
    if foundFieldApiName ≠ "" ∧ plan.action = "analyze" then
      { plan with groupByField := some foundFieldApiName }
    else plan
  Eff.pure plan

/-- a record as extracted by `findRecord`/`findRecordByName` -/
structure FoundRecord where
  _internalId : Option JsValue := none
  name : Option JsValue := none
  code : Option JsValue := none
deriving DecidableEq, Repr

/-- `findRecord` (exact code-or-name match; errors become `null`) -/
def findRecord (env : Env) (objectType nameOrCode : String) :
    Eff (Option FoundRecord) :=
  Eff.tryCatch (do
    let response ← clientGet env
      ("/" ++ objectType ++ "?filter=((code = " ++ sqs ++ nameOrCode ++ sqs ++
       ") or (name = " ++ sqs ++ nameOrCode ++ sqs ++
       "))&fields=_internalId,name&limit=1")
    let records := response.results.getD []
    match records.head? with
    | none => Eff.pure none
    | some r =>
      Eff.pure (some { _internalId := recGet r "_internalId",
                       name := recGet r "name" }))
    (fun _ => Eff.pure none)

/-- `findRecordByName` (code exact, then name contains; errors become
`null`) -/
def findRecordByName (env : Env) (objectType nameOrCode : String) :
    Eff (Option FoundRecord) :=
  Eff.tryCatch (do
    let escapedName := escapeQuotes nameOrCode
    let response ← clientGet env
      ("/" ++ objectType ++ "?filter=((code = " ++ sqs ++ escapedName ++ sqs ++
       "))&fields=_internalId,name,code&limit=1")
    let records := response.results.getD []
    let records ←
      if records.isEmpty then do
        let response2 ← clientGet env
          ("/" ++ objectType ++ "?filter=((name contains " ++ sqs ++
           escapedName ++ sqs ++ "))&fields=_internalId,name,code&limit=1")
        Eff.pure (response2.results.getD [])
      else Eff.pure records
    match records.head? with
    | none => Eff.pure none
    | some r =>
      Eff.pure (some { _internalId := recGet r "_internalId",
                       name := recGet r "name", code := recGet r "code" }))
    (fun _ => Eff.pure none)

/-- the clarifying-failure reply of `generateContextLink` (usage examples) -/
def linkUsageFailReply : String :=
  "‚ùì I need to know what to link to.\n\nTry:\n‚Ä¢ \"Give me link to all projects\"\n‚Ä¢ \"Give me link to project [name]\"\n‚Ä¢ \"Give me link to custom objects\""

/-- `generateContextLink` -/
def generateContextLink (env : Env) (context : ConversationContext)
    (timestamp : Int) : AIResponse :=
  match context.lastQuery with
  | none =>
    { success := false, reply := linkUsageFailReply, chartData := none,
      timestamp := timestamp }
  | some q =>
    if q.objectType = "" then
      { success := false, reply := linkUsageFailReply, chartData := none,
        timestamp := timestamp }
    else
      let base := DeepLinkService.stripBase env.clarityBase
      let (deepLink, linkDescription) :=
        match q.filters with
        | some filters =>
          if filters.length > 0 then
            (DeepLinkService.generateMultiFilterLink base q.objectType filters,
             q.objectLabel ++ " filtered by " ++
               strJoin ", "
                 (filters.map (fun p => p.1 ++ "=\"" ++ p.2 ++ "\"")))
          else
            (DeepLinkService.generateListLink base q.objectType,
             "All " ++ q.objectLabel)
        | none =>
          (DeepLinkService.generateListLink base q.objectType,
           "All " ++ q.objectLabel)
      { success := true,
        reply := "üîó **Link to Clarity**\n\n" ++ linkDescription ++ ":\n" ++
          deepLink,
        chartData := none, timestamp := timestamp, deepLink := some deepLink }

/-- `handleLinkRequest` -/
def handleLinkRequest (env : Env) (sessionId : String) (timestamp : Int)
    (originalMessage : Option String) : Eff AIResponse := do
  let context ← Eff.onContexts (fun s => ContextService.getContext s sessionId)
  match originalMessage with
  | none => Eff.pure (generateContextLink env context timestamp)
  | some originalMessage => do
  let msg := strTrim (strLower originalMessage)
  let base := DeepLinkService.stripBase env.clarityBase
  match matchLinkAllObject msg.data with
  | some objectName =>
    let objectName := strLower objectName
    let deepLink := DeepLinkService.generateListLink base objectName
    Eff.pure
      { success := true,
        reply := "üîó **All " ++ capFirst objectName ++ "**\n\n" ++ deepLink,
        chartData := none, timestamp := timestamp, deepLink := some deepLink }
  | none =>
  if strIncludes msg "custom object" then do
    let customObjects ← getCustomObjectsM env
    let links := strJoin "\n" ((customObjects.take 5).map (fun obj =>
      "‚Ä¢ " ++ obj.label ++ ": " ++
        DeepLinkService.generateListLink base obj.resourceName))
    Eff.pure
      { success := true,
        reply := "üîó **Custom Objects Links**\n\n" ++ links ++
          (if customObjects.length > 5 then
            "\n\n...and " ++ toString (customObjects.length - 5) ++ " more"
          else ""),
        chartData := none, timestamp := timestamp }
  else
  match matchLinkTo msg.data with
  | some cap => do
    let recordName := strTrim cap
    let recordName := strTrim ⟨stripProjSuffix recordName.data⟩
    if recordName ≠ "" ∧
        !(["this", "them", "it", "all", "the", "that"].contains recordName) then do
      let customObjects ← getCustomObjectsM env
      match customObjects.find? (fun o =>
        strIncludes (strLower o.label) recordName ||
        strIncludes (strLower o.resourceName) recordName) with
      | some customObj =>
        let deepLink := DeepLinkService.generateListLink base customObj.resourceName
        Eff.pure
          { success := true,
            reply := "üîó **" ++ customObj.label ++ "**\n\n" ++ deepLink,
            chartData := none, timestamp := timestamp, deepLink := some deepLink }
      | none => do
        let record ← findRecordByName env "projects" recordName
        match record with
        | some record =>
          let deepLink := DeepLinkService.generateRecordLink base "projects"
            (jsTemplate record._internalId) "properties"
          Eff.pure
            { success := true,
              reply := "üîó **Project \"" ++
                (if jsValTruthy record.name then jsTemplate record.name
                 else recordName) ++ "\"**\n\n" ++ deepLink,
              chartData := none, timestamp := timestamp,
              deepLink := some deepLink }
        | none =>
          Eff.pure
            { success := false,
              reply := "‚ùå Could not find \"" ++ recordName ++
                "\". Check the name and try again.\n\nTry:\n‚Ä¢ \"Give me link to all projects\"\n‚Ä¢ \"Give me link to project [exact name]\"",
              chartData := none, timestamp := timestamp }
    else Eff.pure (generateContextLink env context timestamp)
  | none => Eff.pure (generateContextLink env context timestamp)

/-- `handleCountFollowUp` -/
def handleCountFollowUp (sessionId : String) (timestamp : Int) :
    Eff AIResponse := do
  let context ← Eff.onContexts (fun s => ContextService.getContext s sessionId)
  match context.lastQuery with
  | some q =>
    match q.totalCount with
    | some n =>
      Eff.pure
        { success := true,
          reply := "üî¢ **Total: " ++ toString n ++ " " ++ q.objectLabel ++ "**",
          chartData := none, timestamp := timestamp }
    | none =>
      Eff.pure
        { success := false,
          reply := "‚ùì I don" ++ sqs ++
            "t have a count from a previous query. Please run a query first.",
          chartData := none, timestamp := timestamp }
  | none =>
    Eff.pure
      { success := false,
        reply := "‚ùì I don" ++ sqs ++
          "t have a count from a previous query. Please run a query first.",
        chartData := none, timestamp := timestamp }

/-- the no-match failure reply of `handleDrillDown` (lists the available
chart labels verbatim) -/
def noMatchReply (options : List String) : String :=
  "‚ùì I couldn" ++ sqs ++
    "t determine which value you want to see.\n\n**Available options from the last chart:**\n" ++
    strJoin "\n" (options.map (fun o => "‚Ä¢ \"" ++ o ++ "\"")) ++
    "\n\nPlease specify one of these values."

/-- the bulleted record rendering shared by `handleDrillDown` and
`executeQuery` (`records.slice(0, 15)` loop) -/
def recordLines (records : List RecordJson) : String :=
  strJoin "" (records.map (fun record =>
    let name := jsTemplate (jsCoalesce
      [recGet record "name", recGet record "code", recGet record "_internalId"])
    let status := formatFieldValue (recGet record "status")
    "‚Ä¢ **" ++ name ++ "**" ++
      (if status ≠ "" then " (" ++ status ++ ")" else "") ++ "\n"))

/-- `handleDrillDown` -/
def handleDrillDown (env : Env) (sessionId : String)
    (extractedValue : Option String) (originalMessage : String)
    (timestamp : Int) : Eff (Option AIResponse) := do
  let context ← Eff.onContexts (fun s => ContextService.getContext s sessionId)
  match context.lastQuery with
  | none => Eff.pure none
  | some q =>
  if !jsTruthy q.groupByField ∨ q.objectType = "" then Eff.pure none
  else do
  let matchedValue : Option String ←
    match extractedValue with
    | some ev =>
      if ev ≠ "" then
        Eff.onContexts (fun s => ContextService.findDrillDownMatch s sessionId ev)
      else Eff.pure none
    | none => Eff.pure none
  let matchedValue ←
    if !jsTruthy matchedValue then do
      let availableOptions ←
        Eff.onContexts (fun s => ContextService.getDrillDownOptions s sessionId)
      match availableOptions.find? (fun option =>
        strIncludes (strLower originalMessage) (strLower option)) with
      | some o => Eff.pure (some o)
      | none => Eff.pure matchedValue
    else Eff.pure matchedValue
  if !jsTruthy matchedValue then do
    let options ←
      Eff.onContexts (fun s => ContextService.getDrillDownOptions s sessionId)
    Eff.pure (some
      { success := false, reply := noMatchReply options, chartData := none,
        timestamp := timestamp })
  else do
  let matched := matchedValue.getD ""
  let objectType := q.objectType
  let objectLabel := q.objectLabel
  let groupByField := q.groupByField.getD ""
  let groupByDisplayName := (jsOr q.groupByDisplayName q.groupByField).getD ""
  Eff.tryCatch (do
    let filterValue := matched
    let endpoint := "/" ++ objectType ++ "?filter=((" ++ groupByField ++
      " = " ++ sqs ++ filterValue ++ sqs ++
      "))&fields=_internalId,name,code,status&limit=50"
    let response ← clientGet env endpoint
    let records := response.results.getD []
    let totalCount := response.totalCount.getD records.length
    let deepLink := DeepLinkService.generateFilteredLink
      (DeepLinkService.stripBase env.clarityBase) objectType groupByField
      matched
    let reply := "üîç **" ++ objectLabel ++ " where " ++ groupByDisplayName ++
      " = \"" ++ matched ++ "\"**\n" ++ "Found **" ++ toString totalCount ++
      "** records\n\n" ++ recordLines (records.take 15) ++
      (if totalCount > 15 then
        "\n_...and " ++ toString (totalCount - 15) ++ " more_"
      else "") ++
      "\n\nüîó [Open in Clarity](" ++ deepLink ++ ")"
    Eff.modifyContexts (fun s => ContextService.updateLastQuery s sessionId
      (some { objectType := objectType, objectLabel := objectLabel,
              action := "drilldown",
              filters := some [(groupByField, matched)],
              results := some records, totalCount := some totalCount,
              timestamp := env.now }))
    Eff.pure (some
      { success := true, reply := reply, chartData := none,
        timestamp := timestamp, deepLink := some deepLink }))
    (fun error => Eff.pure (some
      { success := false,
        reply := "‚ùå Could not retrieve " ++ objectLabel ++ " where " ++
          groupByDisplayName ++ " = \"" ++ matched ++ "\".\n\nError: " ++ error,
        chartData := none, timestamp := timestamp }))

/-- `handleFollowUp` -/
def handleFollowUp (env : Env) (sessionId : String) (intentType : String)
    (extractedValue : Option String) (originalMessage : String)
    (timestamp : Int) : Eff (Option AIResponse) := do
  let _context ← Eff.onContexts (fun s => ContextService.getContext s sessionId)
  if intentType = "showSelected" then
    handleDrillDown env sessionId extractedValue originalMessage timestamp
  else if intentType = "link" then do
    let r ← handleLinkRequest env sessionId timestamp (some originalMessage)
    Eff.pure (some r)
  else if intentType = "count" then do
    let r ← handleCountFollowUp sessionId timestamp
    Eff.pure (some r)
  else if intentType = "export" then
    Eff.pure (some
      { success := true,
        reply := "üì• **Export Feature**\n\nExport functionality is coming soon! For now, you can:\n‚Ä¢ Copy the data from above\n‚Ä¢ Use the deep link to open in Clarity and export from there",
        chartData := none, timestamp := timestamp })
  else Eff.pure none

/-- the suggestion list of `getErrorResponse`, by error class -/
def errorSuggestions (errorMessage : String) : List String :=
  if strIncludes errorMessage "404" || strIncludes errorMessage "not found" then
    ["List all available objects", "Show custom objects", "Describe projects"]
  else if strIncludes errorMessage "401" || strIncludes errorMessage "403" ||
      strIncludes errorMessage "auth" then
    ["Check API credentials", "Verify permissions"]
  else if strIncludes errorMessage "timeout" ||
      strIncludes errorMessage "ECONNREFUSED" then
    ["Try again in a moment", "Check Clarity server status"]
  else ["Try a simpler query", "List projects", "Show custom objects"]

/-- the hint of `getErrorResponse`, by the same error classes -/
def errorHint (errorMessage : String) : String :=
  if strIncludes errorMessage "404" || strIncludes errorMessage "not found" then
    "The object or field might not exist."
  else if strIncludes errorMessage "401" || strIncludes errorMessage "403" ||
      strIncludes errorMessage "auth" then
    "There might be an authentication or permission issue."
  else if strIncludes errorMessage "timeout" ||
      strIncludes errorMessage "ECONNREFUSED" then
    "The Clarity server might be temporarily unavailable."
  else ""

/-- `getErrorResponse`: classify the error message heuristically and build a
failure response with a hint and alternative suggestions -/
def getErrorResponse (error : String) (timestamp : Int) (_sessionId : String) :
    AIResponse :=
  let errorMessage := error
  let suggestions := errorSuggestions errorMessage
  let hint := errorHint errorMessage
  let reply := "‚ùå **Something went wrong**\n\n" ++ hint ++ "\n\n" ++
    "**Error:** " ++ strTake 200 errorMessage ++ "\n\n" ++
    "üí° **Try instead:**\n" ++
    strJoin "\n" (suggestions.map (fun s => "‚Ä¢ \"" ++ s ++ "\""))
  { success := false, reply := reply, chartData := none,
    timestamp := timestamp }

/-- `getHelpResponse` -/
def getHelpResponse (env : Env) (timestamp : Int) : Eff AIResponse := do
  let customObjects ← getCustomObjectsM env
  let caps := env.capabilities
  let features : List String :=
    (if caps.hasProjects then
      ["‚Ä¢ \"Show project distribution by status\"",
       "‚Ä¢ \"List projects\" / \"How many projects?\""]
    else []) ++
    (if caps.hasTasks then
      ["‚Ä¢ \"List tasks\" / \"Analyze tasks by priority\""]
    else []) ++
    (if caps.hasCustomObjects ∧ customObjects.length > 0 then
      ["‚Ä¢ \"List custom objects\"",
       "‚Ä¢ \"Show " ++
         ((jsOr ((customObjects.head?).map (fun o => o.label))
            (some "custom object")).getD "custom object") ++ " data\""]
    else []) ++
    ["‚Ä¢ \"Give me a link to project X\"",
     "‚Ä¢ \"Show me the active ones\" (after a chart)"]
  let objectsList : List String :=
    (if caps.hasProjects then ["projects"] else []) ++
    (if caps.hasTasks then ["tasks"] else []) ++
    (if caps.hasResources then ["resources"] else [])
  let customList :=
    if customObjects.length > 0 then
      strJoin ", " ((customObjects.take 5).map (fun o => o.label))
    else "none detected"
  Eff.pure
    { success := true,
      reply := "ü§ñ **Clarity AI Assistant**\n\n" ++
        "I understand natural language and remember our conversation!\n\n" ++
        "**Try:**\n" ++ strJoin "\n" (features.take 6) ++ "\n\n" ++
        "**Available:** " ++ strJoin ", " objectsList ++
        (if caps.hasCustomObjects then
          " + " ++ toString customObjects.length ++ " custom objects"
        else "") ++ "\n" ++
        (if customObjects.length > 0 then
          "**Custom Objects:** " ++ customList ++ "...\n\n"
        else "\n") ++
        "üí° After viewing a chart, click bars to drill down!",
      chartData := none, timestamp := timestamp }

/-- first digit run of the message (`/(\d+)/`), as a number -/
def firstDigitRun (s : String) : Option Nat :=
  scanPositions (fun l =>
    match l with
    | c :: _ =>
      if isDigitChar c then some (digitsToNat (takeRunP isDigitChar l).1)
      else none
    | [] => none) s.data

/-- `handleCustomObjectsQuery` -/
def handleCustomObjectsQuery (env : Env) (message : String)
    (timestamp : Int) : Eff AIResponse := do
  let lowerMessage := strLower message
  let customObjects ← getCustomObjectsM env
  if (strIncludes lowerMessage "how many" || strIncludes lowerMessage "count") &&
      !strIncludes lowerMessage "instance" &&
      !strIncludes lowerMessage "record" &&
      !strIncludes lowerMessage "most" then
    Eff.pure
      { success := true,
        reply := "üìä **Found " ++ toString customObjects.length ++
          " Custom Objects** in the system",
        chartData := none, timestamp := timestamp }
  else do
  let wantsInstanceCount := strIncludes lowerMessage "most" ||
    strIncludes lowerMessage "instance" || strIncludes lowerMessage "record" ||
    strIncludes lowerMessage "top" || lowerMessage.data.any isDigitChar
  if wantsInstanceCount then do
    let limit :=
      match firstDigitRun lowerMessage with
      | some n => min n customObjects.length
      | none => 10
    let objectCounts ← customObjects.mapM (fun obj =>
      Eff.tryCatch (do
        let response ← clientGet env
          ("/" ++ obj.resourceName ++ "?fields=_internalId&limit=1")
        let count := response.totalCount.getD 0
        Eff.pure (obj.label, obj.resourceName, count))
        (fun _ => Eff.pure (obj.label, obj.resourceName, (0 : Int))))
    let objectCounts := stableSort (fun a b => b.2.2 ≤ a.2.2) objectCounts
    let shown := (objectCounts.take (min limit objectCounts.length)).enum
    let lines := strJoin "" (shown.map (fun p =>
      toString (p.1 + 1) ++ ". **" ++ p.2.1 ++ "** (`" ++ p.2.2.1 ++
        "`) - **" ++ toString p.2.2.2 ++ "** records\n"))
    let totalInstances := (objectCounts.map (fun o => o.2.2)).sum
    Eff.pure
      { success := true,
        reply := "üìä **Top " ++ toString limit ++
          " Custom Objects by Instance Count**\n\n" ++ lines ++
          "\nüìà **Total:** " ++ toString totalInstances ++
          " records across " ++ toString customObjects.length ++
          " custom objects",
        chartData := none, timestamp := timestamp }
  else
    Eff.pure
      { success := true,
        reply := "üìã **Custom Objects (" ++ toString customObjects.length ++
          ")**\n\n" ++
          strJoin "" (customObjects.map (fun obj =>
            "‚Ä¢ **" ++ obj.label ++ "** (`" ++ obj.resourceName ++ "`)\n")) ++
          "\nüí° To query a custom object, try: \"list " ++
          (((customObjects.head?).map (fun o => o.resourceName)).getD
            "custXXX") ++ "\"",
        chartData := none, timestamp := timestamp }

/-- replace the first occurrence of a literal (JS `s.replace(lit, rep)`) -/
def replaceFirstL (pat rep : String) : List Char → List Char
  | [] => []
  | c :: rest =>
    match eatLit pat (c :: rest) with
    | some r => rep.data ++ r
    | none => c :: replaceFirstL pat rep rest

/-- `executeDescribe` -/
def executeDescribe (env : Env) (plan : APIPlan) : Eff ExecResponse := do
  let metadata ← getObjectMetadata env plan.objectType
  let groupableFields := getGroupableFields metadata
  let lookupFields := metadata.attributes.filter (fun a => a.isLookup)
  let keyFields := (metadata.attributes.filter (fun a =>
    !strStartsWith a.apiName "_" || a.apiName = "_internalId")).take 15
  let reply := "üìã **" ++ metadata.label ++ "** (`" ++ metadata.resourceName ++
    "`)\n\n" ++
    "**Total Fields:** " ++ toString metadata.attributes.length ++ "\n" ++
    "**Groupable Fields:** " ++ toString groupableFields.length ++ "\n" ++
    "**Lookup Fields:** " ++ toString lookupFields.length ++ "\n\n" ++
    "**Key Fields:**\n" ++
    strJoin "" (keyFields.map (fun field =>
      "‚Ä¢ **" ++ field.displayName ++ "** (`" ++ field.apiName ++ "`) - " ++
        field.dataType ++ (if field.isLookup then " üîó" else "") ++ "\n"))
  Eff.pure { success := true, reply := reply, chartData := none }

/-- `executeQuery` -/
def executeQuery (env : Env) (plan : APIPlan) (originalMessage : String)
    (sessionId : String) : Eff ExecResponse := do
  let endpoint := replaceLimitCap plan.endpoint
  let step ←
    if strIncludes endpoint "{projectId}" then
      match extractProjectName originalMessage with
      | some projectName => do
        let project ← findRecord env "projects" projectName
        match project with
        | some project =>
          Eff.pure (Sum.inl
            (⟨replaceFirstL "{projectId}" (jsTemplate project._internalId)
              endpoint.data⟩ : String))
        | none =>
          Eff.pure (Sum.inr
            ({ success := false,
               reply := "‚ùå Could not find project \"" ++ projectName ++ "\"",
               chartData := none } : ExecResponse))
      | none =>
        Eff.pure (Sum.inr
          ({ success := false, reply := "‚ùå Please specify a project name",
             chartData := none } : ExecResponse))
    else Eff.pure (Sum.inl endpoint)
  match step with
  | Sum.inr r => Eff.pure r
  | Sum.inl endpoint =>
  Eff.tryCatch (do
    let response ← clientGet env endpoint
    let records := response.results.getD []
    let totalCount := response.totalCount.getD records.length
    let label ← getObjectLabelM env plan.objectType
    Eff.modifyContexts (fun s => ContextService.updateLastQuery s sessionId
      (some { objectType := plan.objectType, objectLabel := label,
              action := "query", results := some records,
              totalCount := some totalCount, timestamp := env.now }))
    if strIncludes endpoint "limit=1" && !strIncludes endpoint "limit=10" then
      let contextStr :=
        match extractProjectName originalMessage with
        | some projectName => " in project \"" ++ projectName ++ "\""
        | none => ""
      Eff.pure
        { success := true,
          reply := "üìä **Found " ++ toString totalCount ++ " " ++ label ++
            "**" ++ contextStr,
          chartData := none }
    else
      Eff.pure
        { success := true,
          reply := "‚úÖ **" ++ toString totalCount ++ " " ++ label ++
            "**\n\n" ++ recordLines (records.take 15) ++
            (if totalCount > 15 then
              "\n_...and " ++ toString (totalCount - 15) ++ " more_"
            else ""),
          chartData := none })
    (fun error => Eff.pure
      { success := false, reply := "‚ùå Query failed: " ++ error,
        chartData := none })

/-- one step of the distribution tally (`Map.set(k, (m.get(k) ?? 0) + 1)`;
insertion order preserved) -/
def bumpDist (dist : List ChartBucket) (key : String) : List ChartBucket :=
  if dist.any (fun b => b.label = key) then
    dist.map (fun b => if b.label = key then { b with value := b.value + 1 }
                       else b)
  else dist ++ [{ label := key, value := 1 }]

/-- the distribution tally of `executeAnalyze` (missing/empty display
values become the explicit `(No value)` bucket) -/
def buildDistribution (records : List RecordJson) (field : String) :
    List ChartBucket :=
  records.foldl (fun dist record =>
    let dv := formatFieldValue (recGet record field)
    let displayValue := if dv = "" then "(No value)" else dv
    bumpDist dist displayValue) []

/-- `((value / total) * 100).toFixed(1)`.  The float computation is
abstracted as exact half-up rounding of `value * 1000 / total` to one
decimal place. -/
def pctString (value total : Nat) : String :=
  if total = 0 then "NaN"
  else
    let scaled := (value * 2000 + total) / (2 * total)
    toString (scaled / 10) ++ "." ++ toString (scaled % 10)

/-- `executeAnalyze` -/
def executeAnalyze (env : Env) (plan : APIPlan) (sessionId : String) :
    Eff ExecResponse := do
  let groupByField := plan.groupByField.getD "status"
  let metadata ← getObjectMetadata env plan.objectType
  let fieldMeta := metadata.attributes.find? (fun a =>
    strLower a.apiName = strLower groupByField ||
    strLower a.displayName = strLower groupByField)
  match fieldMeta with
  | none =>
    let groupableFields := getGroupableFields metadata
    let suggestions := strJoin "\n‚Ä¢ " ((groupableFields.take 15).map
      (fun f => "`" ++ f.apiName ++ "` (" ++ f.displayName ++ ")"))
    Eff.pure
      { success := false,
        reply := "‚ùå Field \"" ++ groupByField ++ "\" not found in " ++
          metadata.label ++ ".\n\n**Available fields:**\n‚Ä¢ " ++ suggestions,
        chartData := none }
  | some fieldMeta =>
  let actualFieldName := fieldMeta.apiName
  let endpoint := "/" ++ plan.objectType ++ "?fields=_internalId," ++
    actualFieldName ++ "&limit=500"
  Eff.tryCatch (do
    let response ← clientGet env endpoint
    let records := response.results.getD []
    let distribution := buildDistribution records actualFieldName
    let chartDataArray :=
      stableSort (fun a b => b.value ≤ a.value) distribution
    let label ← getObjectLabelM env plan.objectType
    let fieldDisplayName := fieldMeta.displayName
    Eff.modifyContexts (fun s => ContextService.updateLastQuery s sessionId
      (some { objectType := plan.objectType, objectLabel := label,
              action := "analyze",
              totalCount := some (records.length : Int),
              groupByField := some actualFieldName,
              groupByDisplayName := some fieldDisplayName,
              chartData := some [(actualFieldName, chartDataArray)],
              timestamp := env.now }))
    let reply := "üìä **" ++ label ++ " by " ++ fieldDisplayName ++ "** (" ++
      toString records.length ++ " records)\n\n" ++
      strJoin "" ((chartDataArray.take 10).map (fun item =>
        "‚Ä¢ **" ++ item.label ++ ":** " ++ toString item.value ++ " (" ++
          pctString item.value records.length ++ "%)\n")) ++
      (if chartDataArray.length > 10 then
        "\n_...and " ++ toString (chartDataArray.length - 10) ++
          " more categories_"
      else "") ++
      "\n\n‚ú® Click on any value to see the records"
    let chartData : ChartData :=
      { groupableFields := [actualFieldName],
        chartData := [(actualFieldName, chartDataArray)],
        fieldMetadata := [(actualFieldName,
          { displayName := fieldDisplayName, dataType := fieldMeta.dataType })],
        drillDownEnabled := some true, objectType := some plan.objectType,
        groupByField := some actualFieldName }
    Eff.pure { success := true, reply := reply, chartData := some chartData })
    (fun _error => do
      let groupableFields := getGroupableFields metadata
      let suggestions := strJoin ", " ((groupableFields.take 10).map
        (fun f => "`" ++ f.apiName ++ "`"))
      Eff.pure
        { success := false,
          reply := "‚ùå Could not query field \"" ++ actualFieldName ++
            "\".\n\n**Try:** " ++ suggestions,
          chartData := none })

/-- JS object-key assignment on an association list -/
def assocSet (l : List (String × JsValue)) (k : String) (v : JsValue) :
    List (String × JsValue) :=
  if l.any (fun p => p.1 = k) then
    l.map (fun p => if p.1 = k then (k, v) else p)
  else l ++ [(k, v)]

/-- `executeCreate` -/
def executeCreate (env : Env) (plan : APIPlan) (originalMessage : String) :
    Eff ExecResponse := do
  let endpoint := plan.endpoint
  let body := plan.body.getD []
  let step ←
    if strIncludes endpoint "/projects/" && !hasProjectsIdSeg endpoint then
      match extractProjectName originalMessage with
      | some projectName => do
        let project ← findRecord env "projects" projectName
        match project with
        | some project =>
          Eff.pure (Sum.inl
            (⟨replaceProjectsSeg (jsTemplate project._internalId)
              endpoint.data⟩ : String))
        | none =>
          Eff.pure (Sum.inr
            ({ success := false,
               reply := "‚ùå Could not find project \"" ++ projectName ++ "\"",
               chartData := none } : ExecResponse))
      | none => Eff.pure (Sum.inl endpoint)
    else Eff.pure (Sum.inl endpoint)
  match step with
  | Sum.inr r => Eff.pure r
  | Sum.inl endpoint =>
  let body :=
    if !jsValTruthy (body.lookup "name") then
      match extractCreateNameL originalMessage.data with
      | some nm => assocSet body "name" (JsValue.vStr (strTrim nm))
      | none => body
    else body
  let body :=
    if !jsValTruthy (body.lookup "code") ∧
        (endpoint = "/projects" ∨ strStartsWith endpoint "/cust" ∨
         strStartsWith endpoint "/oba") then
      if jsValTruthy (body.lookup "name") then
        assocSet body "code" (JsValue.vStr
          (sanitizeCode (jsTemplate (body.lookup "name")) ++ "_" ++
            toString env.now))
      else body
    else body
  let result ← clientPost env endpoint body
  let newId := result.internalId
  let label ← getObjectLabelM env plan.objectType
  Eff.pure
    { success := true,
      reply := "‚úÖ **" ++ label ++ " Created!**\n\n‚Ä¢ **Name:** " ++
        jsTemplate (body.lookup "name") ++ "\n‚Ä¢ **ID:** " ++
        (match newId with
         | some n => toString n
         | none => "undefined"),
      chartData := none }

/-- `executeUpdate` -/
def executeUpdate (env : Env) (plan : APIPlan) (originalMessage : String) :
    Eff ExecResponse := do
  let recordName := extractRecordName originalMessage
  if !jsTruthy recordName then
    Eff.pure
      { success := false,
        reply := "‚ùå Could not determine which record to update",
        chartData := none }
  else do
  let recordName := recordName.getD ""
  let record ← findRecord env plan.objectType recordName
  match record with
  | none =>
    Eff.pure
      { success := false,
        reply := "‚ùå Could not find " ++ plan.objectType ++ " \"" ++
          recordName ++ "\"",
        chartData := none }
  | some record => do
  let endpoint := "/" ++ plan.objectType ++ "/" ++
    jsTemplate record._internalId
  let _ ← clientPatch env endpoint (plan.body.getD [])
  let label ← getObjectLabelM env plan.objectType
  Eff.pure
    { success := true,
      reply := "‚úÖ **" ++ label ++ " Updated!**\n\n‚Ä¢ **Record:** " ++
        (match record.name with
         | some JsValue.vNull => recordName
         | some v => jsTemplate (some v)
         | none => recordName),
      chartData := none }

/-- `executeDelete` -/
def executeDelete (env : Env) (plan : APIPlan) (originalMessage : String) :
    Eff ExecResponse := do
  let recordName := extractRecordName originalMessage
  if !jsTruthy recordName then
    Eff.pure
      { success := false,
        reply := "‚ùå Could not determine which record to delete",
        chartData := none }
  else do
  let recordName := recordName.getD ""
  let record ← findRecord env plan.objectType recordName
  match record with
  | none =>
    Eff.pure
      { success := false,
        reply := "‚ùå Could not find " ++ plan.objectType ++ " \"" ++
          recordName ++ "\"",
        chartData := none }
  | some record => do
  let endpoint := "/" ++ plan.objectType ++ "/" ++
    jsTemplate record._internalId
  let _ ← clientDelete env endpoint
  let label ← getObjectLabelM env plan.objectType
  Eff.pure
    { success := true,
      reply := "‚úÖ **" ++ label ++ " Deleted!**\n\n‚Ä¢ **ID:** " ++
        jsTemplate record._internalId,
      chartData := none }

/-- `executePlan` -/
def executePlan (env : Env) (plan : APIPlan) (originalMessage : String)
    (sessionId : String) : Eff ExecResponse := do
  if plan.action = "help" then do
    let r ← getHelpResponse env 0
    Eff.pure { success := r.success, reply := r.reply, chartData := r.chartData }
  else if plan.action = "describe" then executeDescribe env plan
  else if plan.action = "query" then
    executeQuery env plan originalMessage sessionId
  else if plan.action = "analyze" then executeAnalyze env plan sessionId
  else if plan.action = "create" then executeCreate env plan originalMessage
  else if plan.action = "update" then executeUpdate env plan originalMessage
  else if plan.action = "delete" then executeDelete env plan originalMessage
  else
    Eff.pure
      { success := false, reply := "‚ùå Unknown action: " ++ plan.action,
        chartData := none }

/-- the body of `handleMessage` (everything inside the `try`) -/
def handleMessageBody (env : Env) (message : String) (sessionId : String) :
    Eff AIResponse := do
  let timestamp := env.now
  let context ← Eff.onContexts (fun s => ContextService.getContext s sessionId)
  Eff.modifyContexts (fun s => ContextService.addToHistory s sessionId
    { timestamp := timestamp, role := "user", message := message })
  let s ← Eff.get
  if s.discoveredObjects.length = 0 then discoverObjects env
  else Eff.pure ()
  if isGreetingMessage message then getHelpResponse env timestamp
  else do
  let lowerMessage := strLower message
  let linkShortCircuit : Option AIResponse ←
    if strIncludes lowerMessage "link" && !strIncludes lowerMessage "create" &&
        !strIncludes lowerMessage "new" then do
      let linkResult ← handleLinkRequest env sessionId timestamp (some message)
      if linkResult.success then do
        let ctx2 ← Eff.onContexts
          (fun st => ContextService.getContext st sessionId)
        let suggestions := SuggestionService.generateSuggestions ctx2 "query"
        Eff.modifyContexts (fun st => ContextService.addToHistory st sessionId
          { timestamp := timestamp, role := "assistant",
            message := linkResult.reply, action := some "link",
            success := some true })
        Eff.pure (some { linkResult with
          suggestions := some (suggestions.map (fun sg =>
            { label := sg.emoji ++ " " ++ sg.text, value := sg.action })) })
      else Eff.pure none
    else Eff.pure none
  match linkShortCircuit with
  | some r => Eff.pure r
  | none => do
  let followUp := detectFollowUpIntent message
  let fuShortCircuit : Option AIResponse ←
    match followUp.type with
    | some ty =>
      if ty ≠ "link" then do
        let canDD ← Eff.onContexts
          (fun st => ContextService.canDrillDown st sessionId)
        if canDD then
          handleFollowUp env sessionId ty followUp.extractedValue message
            timestamp
        else Eff.pure none
      else Eff.pure none
    | none => Eff.pure none
  match fuShortCircuit with
  | some r => Eff.pure r
  | none => do
  if strIncludes lowerMessage "custom object" &&
      !strIncludes lowerMessage "create" && !strIncludes lowerMessage "new" &&
      !strIncludes lowerMessage "add" && !strIncludes lowerMessage "describe" &&
      !strIncludes lowerMessage "fields" &&
      !strIncludes lowerMessage "◊™◊ê◊®" &&
      !strIncludes lowerMessage "◊©◊ì◊ï◊™" then
    handleCustomObjectsQuery env message timestamp
  else do
  let plan ← getAIPlan env message context
  let result ← executePlan env plan message sessionId
  let ctx3 ← Eff.onContexts (fun st => ContextService.getContext st sessionId)
  let suggestions := SuggestionService.generateSuggestions ctx3 plan.action
  Eff.modifyContexts (fun st => ContextService.addToHistory st sessionId
    { timestamp := env.now, role := "assistant",
      message := strTake 200 result.reply, action := some plan.action,
      objectType := some plan.objectType, success := some result.success })
  let ctxSummary ← Eff.onContexts
    (fun st => ContextService.getContextSummary st sessionId)
  Eff.pure
    { success := result.success, reply := result.reply,
      chartData := result.chartData, timestamp := timestamp,
      suggestions := some
        (SuggestionService.formatSuggestionsAsButtons suggestions),
      debug := some
        { aiPlan := some plan.explanation, apiCalls := some [plan.endpoint],
          context := some ctxSummary } }

/-- `handleMessage`: the single entry point; every thrown error is caught
and converted by `getErrorResponse`. -/
def handleMessage (env : Env) (message : String) (sessionId : String) :
    Eff AIResponse :=
  Eff.tryCatch (handleMessageBody env message sessionId)
    (fun error => Eff.pure (getErrorResponse error env.now sessionId))

end AIChatHandler

/-! ## ClarityApiClient.request retry loop (src/services/LookupService.ts,
`ClarityApiClient` section) -/

namespace ClarityApiClient

/-- the no-retry classification of `request`:
`lastError.message.includes("401") || lastError.message.includes("403")` -/
def isAuthError (e : String) : Bool :=
  strIncludes e "401" || strIncludes e "403"

/-- the retry loop of `request`.  `attemptOutcome i` is the outcome of the
`i`-th attempt (0-based): the parsed body, or the thrown error message (the
`HTTP <status>: <text>` failure for a non-2xx response, or a network/abort
error).  Returns the final outcome, the number of attempts made, and the
list of backoff delays (in ms) waited between attempts.  `remaining` is
`maxRetries - attempt`. -/
def requestGo (attemptOutcome : Nat → Except String ApiResult) :
    Nat → Nat → Option String → List Nat →
    Except String ApiResult × Nat × List Nat
  | 0, attempt, lastError, delays =>
    (Except.error (lastError.getD "Request failed"), attempt, delays)
  | remaining + 1, attempt, _lastError, delays =>
    match attemptOutcome attempt with
    | Except.ok v => (Except.ok v, attempt + 1, delays)
    | Except.error e =>
      if isAuthError e then (Except.error e, attempt + 1, delays)
      else if remaining > 0 then
        requestGo attemptOutcome remaining (attempt + 1) (some e)
          (delays ++ [1000 * (attempt + 1)])
      else requestGo attemptOutcome remaining (attempt + 1) (some e) delays

/-- `ClarityApiClient.request` (the `for` loop over
`attempt < this.maxRetries` with fail-fast on auth errors and linear
backoff `1000 * (attempt + 1)` otherwise) -/
def request (attemptOutcome : Nat → Except String ApiResult)
    (maxRetries : Nat) : Except String ApiResult × Nat × List Nat :=
  requestGo attemptOutcome maxRetries 0 none []

end ClarityApiClient

/-! ## Run lemmas for the effect monad -/

theorem Eff.run_bind (m : Eff α) (f : α → Eff β) (st : HandlerState) :
    (m >>= f) st =
      match m st with
      | (Except.ok a, s1, l1) =>
        ((f a s1).1, (f a s1).2.1, l1 ++ (f a s1).2.2)
      | (Except.error e, s1, l1) => (Except.error e, s1, l1) := by
  show Eff.bind m f st = _
  unfold Eff.bind
  rcases h : m st with ⟨r, s1, l1⟩
  cases r with
  | ok a =>
    rcases h2 : f a s1 with ⟨r2, s2, l2⟩
    simp [h2]
  | error e => rfl

theorem Eff.run_bind_ok {α β : Type} {m : Eff α} {st : HandlerState}
    {a : α} {s1 : HandlerState} {l1 : List RemoteCall} (f : α → Eff β)
    (h : m st = (Except.ok a, s1, l1)) :
    (m >>= f) st = ((f a s1).1, (f a s1).2.1, l1 ++ (f a s1).2.2) := by
  rw [Eff.run_bind, h]

theorem Eff.run_bind_error {α β : Type} {m : Eff α} {st : HandlerState}
    {e : String} {s1 : HandlerState} {l1 : List RemoteCall} (f : α → Eff β)
    (h : m st = (Except.error e, s1, l1)) :
    (m >>= f) st = (Except.error e, s1, l1) := by
  rw [Eff.run_bind, h]

theorem Eff.run_pure (a : α) (st : HandlerState) :
    (Pure.pure a : Eff α) st = (Except.ok a, st, []) := rfl

theorem Eff.run_pure_eff (a : α) (st : HandlerState) :
    (Eff.pure a : Eff α) st = (Except.ok a, st, []) := rfl

theorem Eff.run_tell (c : RemoteCall) (st : HandlerState) :
    Eff.tell c st = (Except.ok (), st, [c]) := rfl

theorem Eff.run_get (st : HandlerState) :
    Eff.get st = (Except.ok st, st, []) := rfl

theorem Eff.run_set (s1 st : HandlerState) :
    Eff.set s1 st = (Except.ok (), s1, []) := rfl

theorem Eff.run_throwErr (e : String) (st : HandlerState) :
    (Eff.throwErr e : Eff α) st = (Except.error e, st, []) := rfl

theorem Eff.run_liftExcept_ok (a : α) (st : HandlerState) :
    Eff.liftExcept (Except.ok a) st = (Except.ok a, st, []) := rfl

theorem Eff.run_liftExcept_error (e : String) (st : HandlerState) :
    (Eff.liftExcept (Except.error e) : Eff α) st = (Except.error e, st, []) :=
  rfl

theorem Eff.run_onContexts (f : ContextStore → α × ContextStore)
    (st : HandlerState) :
    Eff.onContexts f st =
      (Except.ok (f st.contexts).1,
       { st with contexts := (f st.contexts).2 }, []) := by
  unfold Eff.onContexts
  rcases h : f st.contexts with ⟨a, c1⟩
  simp [h]

theorem Eff.run_modifyContexts (f : ContextStore → ContextStore)
    (st : HandlerState) :
    Eff.modifyContexts f st =
      (Except.ok (), { st with contexts := f st.contexts }, []) := rfl

theorem Eff.run_tryCatch (m : Eff α) (h : String → Eff α)
    (st : HandlerState) :
    Eff.tryCatch m h st =
      match m st with
      | (Except.error e, s1, l1) =>
        ((h e s1).1, (h e s1).2.1, l1 ++ (h e s1).2.2)
      | (Except.ok a, s1, l1) => (Except.ok a, s1, l1) := by
  unfold Eff.tryCatch
  rcases hm : m st with ⟨r, s1, l1⟩
  cases r with
  | ok a => rfl
  | error e =>
    rcases h2 : h e s1 with ⟨r2, s2, l2⟩
    simp [h2]

/-! ## Claim C5: the history bound -/

/-- the pure push-and-trim step of `addToHistory` -/
def pushTrim (h : List ConversationTurn) (t : ConversationTurn) :
    List ConversationTurn :=
  let h2 := h ++ [t]
  if h2.length > ContextService.MAX_HISTORY_LENGTH then
    h2.drop (h2.length - ContextService.MAX_HISTORY_LENGTH)
  else h2

/-- the stored history of a session (empty when the session is absent) -/
def historyOf (s : ContextStore) (sid : String) : List ConversationTurn :=
  ((s sid).getD (ContextService.createNewContext sid)).history

/-- appending a sequence of turns through `addToHistory` -/
def appendTurns (s : ContextStore) (sid : String)
    (ts : List ConversationTurn) : ContextStore :=
  ts.foldl (fun s t => ContextService.addToHistory s sid t) s

theorem historyOf_addToHistory (s : ContextStore) (sid : String)
    (t : ConversationTurn) :
    historyOf (ContextService.addToHistory s sid t) sid =
      pushTrim (historyOf s sid) t := by
  unfold historyOf ContextService.addToHistory ContextService.getContext
    pushTrim
  cases h : s sid <;> simp [h, fupdate]

theorem drop_append_drop {α : Type} (l m : List α) (a b : Nat)
    (h : a ≤ l.length) :
    (l.drop a ++ m).drop b = (l ++ m).drop (a + b) := by
  have h1 : List.drop a (l ++ m) = l.drop a ++ m :=
    List.drop_append_of_le_length h
  rw [← h1, List.drop_drop]

theorem foldl_pushTrim (ts : List ConversationTurn) :
    ∀ h : List ConversationTurn, h.length ≤ 20 →
      ts.foldl pushTrim h = (h ++ ts).drop ((h ++ ts).length - 20) := by
  induction ts with
  | nil =>
    intro h hlen
    simp [Nat.sub_eq_zero_of_le hlen]
  | cons t ts ih =>
    intro h hlen
    have hstep : pushTrim h t = (h ++ [t]).drop ((h ++ [t]).length - 20) := by
      unfold pushTrim
      simp only [ContextService.MAX_HISTORY_LENGTH]
      split
      · rfl
      · next hle =>
        have h0 : (h ++ [t]).length - 20 = 0 := by
          simp only [List.length_append, List.length_cons, List.length_nil]
            at hle ⊢
          omega
        rw [h0, List.drop_zero]
    have hsteplen : (pushTrim h t).length ≤ 20 := by
      rw [hstep, List.length_drop]
      omega
    have hfold := ih (pushTrim h t) hsteplen
    rw [List.foldl_cons, hfold, hstep]
    have hd : (h ++ [t]).length - 20 ≤ (h ++ [t]).length := Nat.sub_le _ _
    rw [drop_append_drop _ _ _ _ hd]
    have happ : (h ++ [t]) ++ ts = h ++ t :: ts := by simp
    rw [happ]
    congr 1
    simp only [List.length_append, List.length_drop, List.length_cons,
      List.length_nil]
    omega

theorem historyOf_appendTurns (s : ContextStore) (sid : String)
    (ts : List ConversationTurn) :
    historyOf (appendTurns s sid ts) sid =
      ts.foldl pushTrim (historyOf s sid) := by
  induction ts generalizing s with
  | nil => rfl
  | cons t ts ih =>
    unfold appendTurns at ih ⊢
    rw [List.foldl_cons, List.foldl_cons, ih, historyOf_addToHistory]

/-- **C5** (history bound): for every session and every sequence of appended
turns, the stored history holds at most 20 turns; for at most 20 appended
turns it is exactly the appended sequence; for more than 20 it is exactly
the 20 most recently appended turns, oldest first. -/
theorem claim_C5_history_bound (sid : String) (ts : List ConversationTurn) :
    (historyOf (appendTurns emptyStore sid ts) sid).length ≤ 20 ∧
    (ts.length ≤ 20 → historyOf (appendTurns emptyStore sid ts) sid = ts) ∧
    (ts.length > 20 →
      historyOf (appendTurns emptyStore sid ts) sid =
        ts.drop (ts.length - 20)) := by
  have hbase : historyOf emptyStore sid = [] := rfl
  have hmain : historyOf (appendTurns emptyStore sid ts) sid =
      ts.drop (ts.length - 20) := by
    rw [historyOf_appendTurns, hbase, foldl_pushTrim ts [] (by simp)]
    simp
  refine ⟨?_, ?_, ?_⟩
  · rw [hmain, List.length_drop]; omega
  · intro hle
    rw [hmain, Nat.sub_eq_zero_of_le hle, List.drop_zero]
  · intro _
    exact hmain

/-- concrete turns for the C5 witness -/
def c5Turns : List ConversationTurn :=
  (List.range 21).map (fun i =>
    { timestamp := (i : Int), role := "user", message := toString i })

/-- witness for C5: appending 21 turns leaves exactly the last 20. -/
theorem claim_C5_history_bound_witness :
    c5Turns.length > 20 ∧
    historyOf (appendTurns emptyStore "s" c5Turns) "s" =
      c5Turns.drop 1 := by
  refine ⟨by decide, ?_⟩
  have h := (claim_C5_history_bound "s" c5Turns).2.2 (by decide)
  have hl : c5Turns.length - 20 = 1 := by decide
  rw [hl] at h
  exact h

/-! ## Claim C6: the expiry sweep -/

/-- a store holding one session with empty history, for the C6
counterexample -/
def c6Store : ContextStore :=
  fupdate emptyStore "s" { sessionId := "s", history := [] }

/-- **C6 counterexample**: the sweep does not remove *exactly* the sessions
whose last history entry is more than 30 minutes old — a session with an
empty history (hence no last history entry at all) is also removed, because
its last activity is taken to be the epoch.  Concretely: session `"s"` has
an empty history, yet a sweep at `now = 1800001` ms deletes it. -/
theorem claim_C6_counterexample :
    (c6Store "s").map (fun c => c.history) = some [] ∧
    ContextService.cleanupExpiredContexts c6Store 1800001 "s" = none := by
  constructor
  · rfl
  · rfl

/-- **C6 (amended)**: the sweep removes a stored session exactly when its
last-activity instant — the timestamp of its last history entry, or the
epoch 0 when the history is empty — is more than 30 minutes before the
sweep time; otherwise the session survives unchanged.  In particular a
session whose last turn is at minute 29 survives a sweep at minute 30
(witness below). -/
theorem claim_C6_expiry (s : ContextStore) (now : Int) (sid : String)
    (ctx : ConversationContext) (h : s sid = some ctx) :
    (ContextService.cleanupExpiredContexts s now sid = none ↔
      now - ContextService.lastActivity ctx >
        ContextService.CONTEXT_EXPIRY_MS) ∧
    (ContextService.cleanupExpiredContexts s now sid = some ctx ↔
      now - ContextService.lastActivity ctx ≤
        ContextService.CONTEXT_EXPIRY_MS) := by
  unfold ContextService.cleanupExpiredContexts
  rw [h]
  constructor
  · constructor
    · intro hnone
      by_contra hle
      simp [if_neg hle] at hnone
    · intro hgt
      simp [if_pos hgt]
  · constructor
    · intro hsome
      by_contra hgt
      push_neg at hgt
      simp [if_pos hgt] at hsome
    · intro hle
      have : ¬ (now - ContextService.lastActivity ctx >
          ContextService.CONTEXT_EXPIRY_MS) := by omega
      simp [if_neg this]

/-- a session whose last turn was appended at minute 29 -/
def c6Minute29Store : ContextStore :=
  fupdate emptyStore "s"
    { sessionId := "s",
      history := [{ timestamp := 29 * 60000, role := "user", message := "m" }] }

/-- an idle session whose last turn is 31 minutes old at sweep time -/
def c6IdleStore : ContextStore :=
  fupdate emptyStore "t"
    { sessionId := "t",
      history := [{ timestamp := 0, role := "user", message := "m" }] }

/-- witness for C6 (amended): the minute-29 session survives a sweep at
minute 30, and a session idle for 31 minutes is removed by a sweep. -/
theorem claim_C6_expiry_witness :
    (ContextService.cleanupExpiredContexts c6Minute29Store (30 * 60000) "s" =
      some { sessionId := "s",
             history := [{ timestamp := 29 * 60000, role := "user",
                           message := "m" }] }) ∧
    ContextService.cleanupExpiredContexts c6IdleStore (31 * 60000) "t" =
      none := by
  constructor
  · exact (claim_C6_expiry c6Minute29Store (30 * 60000) "s" _ rfl).2.mpr
      (by decide)
  · exact (claim_C6_expiry c6IdleStore (31 * 60000) "t" _ rfl).1.mpr
      (by decide)

/-! ## Claim C10: empty-history sessions and the sweep -/

/-- **C10**: a session whose history is empty is removed by any sweep whose
clock exceeds the 30-minute expiry span (its last activity is taken as the
epoch 0), regardless of how recently it was created or mutated; in
particular a context created by `getContext` alone — e.g. through
`setCurrentPage` or `updatePreferences` without any appended turn — is
deleted by the first sweep after its creation. -/
theorem claim_C10_empty_history_swept (s : ContextStore) (sid : String)
    (now : Int) (hnow : now > ContextService.CONTEXT_EXPIRY_MS) :
    (∀ ctx, s sid = some ctx → ctx.history = [] →
      ContextService.cleanupExpiredContexts s now sid = none) ∧
    (∀ page, s sid = none →
      ContextService.cleanupExpiredContexts
        (ContextService.setCurrentPage s sid page) now sid = none) ∧
    (∀ prefs, s sid = none →
      ContextService.cleanupExpiredContexts
        (ContextService.updatePreferences s sid prefs) now sid = none) := by
  have hkey : ∀ ctx : ConversationContext, ctx.history = [] →
      now - ContextService.lastActivity ctx >
        ContextService.CONTEXT_EXPIRY_MS := by
    intro ctx hh
    unfold ContextService.lastActivity
    rw [hh]
    simpa using hnow
  have h30 : now - (0 : Int) > ContextService.CONTEXT_EXPIRY_MS := by
    simpa using hnow
  refine ⟨?_, ?_, ?_⟩
  · intro ctx hs hh
    simp [ContextService.cleanupExpiredContexts, hs,
      ContextService.lastActivity, hh, h30]
    exact hnow
  · intro page hs
    simp [ContextService.cleanupExpiredContexts,
      ContextService.setCurrentPage, ContextService.getContext,
      ContextService.createNewContext, fupdate, hs,
      ContextService.lastActivity, h30]
    exact hnow
  · intro prefs hs
    simp [ContextService.cleanupExpiredContexts,
      ContextService.updatePreferences, ContextService.getContext,
      ContextService.createNewContext, fupdate, hs,
      ContextService.lastActivity, h30]
    exact hnow

/-- witness for C10: a context created through `setCurrentPage` alone (empty
history) at any moment is removed by a sweep at `now = 1800001` ms. -/
theorem claim_C10_empty_history_swept_witness :
    (1800001 : Int) > ContextService.CONTEXT_EXPIRY_MS ∧
    ContextService.cleanupExpiredContexts
      (ContextService.setCurrentPage emptyStore "fresh"
        (some { objectType := "projects" })) 1800001 "fresh" = none := by
  refine ⟨by decide, ?_⟩
  exact (claim_C10_empty_history_swept emptyStore "fresh" 1800001
    (by decide)).2.1 (some { objectType := "projects" }) rfl

/-! ## Claim C8: the retry policy -/

/-- the linear backoff delays: `1000*(a+1), 1000*(a+2), ...` (`n` entries) -/
def backoffs (a n : Nat) : List Nat :=
  (List.range n).map (fun i => 1000 * (a + 1 + i))

theorem backoffs_succ (a n : Nat) :
    backoffs a (n + 1) = 1000 * (a + 1) :: backoffs (a + 1) n := by
  unfold backoffs
  rw [List.range_succ_eq_map]
  simp only [List.map_cons, List.map_map]
  congr 1
  apply List.map_congr_left
  intro i _
  simp [Function.comp]
  ring

theorem requestGo_allFail (attemptOutcome : Nat → Except String ApiResult)
    (es : Nat → String) :
    ∀ remaining : Nat, 0 < remaining →
      ∀ (attempt : Nat) (lastError : Option String) (delays : List Nat),
      (∀ i, attempt ≤ i → i < attempt + remaining →
        attemptOutcome i = Except.error (es i) ∧
        ClarityApiClient.isAuthError (es i) = false) →
      ClarityApiClient.requestGo attemptOutcome remaining attempt lastError
          delays =
        (Except.error (es (attempt + remaining - 1)), attempt + remaining,
         delays ++ backoffs attempt (remaining - 1)) := by
  intro remaining
  induction remaining with
  | zero => intro h; omega
  | succ n ih =>
    intro _ attempt lastError delays hall
    have h0 := hall attempt (Nat.le_refl _) (by omega)
    unfold ClarityApiClient.requestGo
    rw [h0.1]
    simp only [h0.2, Bool.false_eq_true, if_false]
    cases n with
    | zero =>
      simp [ClarityApiClient.requestGo, backoffs]
    | succ m =>
      have hrec := ih (by omega) (attempt + 1) (some (es attempt))
        (delays ++ [1000 * (attempt + 1)])
        (fun i hi1 hi2 => hall i (by omega) (by omega))
      simp only [Nat.succ_sub_one]
      rw [if_pos (Nat.succ_pos m), hrec, backoffs_succ]
      refine congrArg₂ _ ?_ (congrArg₂ _ (by omega) ?_)
      · congr 2
        omega
      · simp

/-- **C8** (retry policy): a 401/403-classified failure on the first attempt
makes `request` throw that error immediately after one attempt, with no
backoff delays; when every attempt fails with a non-auth error, `request`
makes exactly `maxRetries` attempts with linearly increasing backoff delays
`1000ms, 2000ms, ...` between them and finally throws the last error. -/
theorem claim_C8_retry_policy (attemptOutcome : Nat → Except String ApiResult)
    (maxRetries : Nat) (hpos : 0 < maxRetries) :
    (∀ e, attemptOutcome 0 = Except.error e →
      ClarityApiClient.isAuthError e = true →
      ClarityApiClient.request attemptOutcome maxRetries =
        (Except.error e, 1, [])) ∧
    (∀ es : Nat → String,
      (∀ i, i < maxRetries → attemptOutcome i = Except.error (es i) ∧
        ClarityApiClient.isAuthError (es i) = false) →
      ClarityApiClient.request attemptOutcome maxRetries =
        (Except.error (es (maxRetries - 1)), maxRetries,
         (List.range (maxRetries - 1)).map (fun i => 1000 * (i + 1)))) := by
  constructor
  · intro e h0 hauth
    obtain ⟨n, rfl⟩ : ∃ n, maxRetries = n + 1 :=
      ⟨maxRetries - 1, by omega⟩
    unfold ClarityApiClient.request ClarityApiClient.requestGo
    rw [h0]
    simp [hauth]
  · intro es hall
    have h := requestGo_allFail attemptOutcome es maxRetries hpos 0 none []
      (fun i hi1 hi2 => hall i (by omega))
    unfold ClarityApiClient.request
    rw [h]
    simp only [Nat.zero_add, List.nil_append]
    refine congrArg₂ _ rfl (congrArg₂ _ rfl ?_)
    unfold backoffs
    apply List.map_congr_left
    intro i _
    ring

/-- an always-401 oracle -/
def c8AuthOutcome : Nat → Except String ApiResult :=
  fun _ => Except.error "HTTP 401: Unauthorized"

/-- an always-500 oracle -/
def c8FailMsgs : Nat → String := fun _ => "HTTP 500: Internal Server Error"

/-- the outcomes of `c8FailMsgs` -/
def c8FailOutcome : Nat → Except String ApiResult :=
  fun i => Except.error (c8FailMsgs i)

/-- witness for C8 with `maxRetries = 3`: the 401 throws after one attempt
with no delay; three 500s make three attempts with delays 1000 ms and
2000 ms and throw the last error. -/
theorem claim_C8_retry_policy_witness :
    ClarityApiClient.request c8AuthOutcome 3 =
      (Except.error "HTTP 401: Unauthorized", 1, []) ∧
    ClarityApiClient.request c8FailOutcome 3 =
      (Except.error "HTTP 500: Internal Server Error", 3, [1000, 2000]) := by
  constructor
  · exact (claim_C8_retry_policy c8AuthOutcome 3 (by decide)).1 _ rfl
      (by decide)
  · have h := (claim_C8_retry_policy c8FailOutcome 3 (by decide)).2 c8FailMsgs
      (fun i _ => ⟨rfl,
        show ClarityApiClient.isAuthError "HTTP 500: Internal Server Error" =
          false from by decide⟩)
    have hlist : (List.range (3 - 1)).map (fun i => 1000 * (i + 1)) =
        [1000, 2000] := by decide
    rw [hlist] at h
    exact h

/-! ## Claim C7: the total entry point -/

theorem getErrorResponse_reply_ne (e : String) (ts : Int) (sid : String) :
    (AIChatHandler.getErrorResponse e ts sid).reply ≠ "" := by
  intro h
  have hrepl : (AIChatHandler.getErrorResponse e ts sid).reply =
      "‚ùå **Something went wrong**\n\n" ++ AIChatHandler.errorHint e ++
      "\n\n" ++ "**Error:** " ++ strTake 200 e ++ "\n\n" ++
      "üí° **Try instead:**\n" ++
      strJoin "\n" ((AIChatHandler.errorSuggestions e).map
        (fun s => "‚Ä¢ \"" ++ s ++ "\"")) := rfl
  rw [hrepl] at h
  have hlen := congrArg String.length h
  have h0 : ("" : String).length = 0 := rfl
  rw [h0] at hlen
  simp only [String.length_append] at hlen
  have hp : (0 : Nat) < ("‚ùå **Something went wrong**\n\n" : String).length :=
    by decide
  omega

/-- **C7** (total entry point): `handleMessage` always produces a response
value (never an exception); when the body succeeds that response is the
body's, and when the body throws, the response is `getErrorResponse` of the
thrown message — a failure with `success = false`, a null `chartData`, and
a non-empty human-readable reply. -/
theorem claim_C7_total_entry_point (env : Env) (message sessionId : String)
    (st : HandlerState) :
    (∃ r, (AIChatHandler.handleMessage env message sessionId st).1 =
      Except.ok r) ∧
    (∀ r, (AIChatHandler.handleMessageBody env message sessionId st).1 =
        Except.ok r →
      (AIChatHandler.handleMessage env message sessionId st).1 =
        Except.ok r) ∧
    (∀ e, (AIChatHandler.handleMessageBody env message sessionId st).1 =
        Except.error e →
      (AIChatHandler.handleMessage env message sessionId st).1 =
        Except.ok (AIChatHandler.getErrorResponse e env.now sessionId) ∧
      (AIChatHandler.getErrorResponse e env.now sessionId).success = false ∧
      (AIChatHandler.getErrorResponse e env.now sessionId).chartData = none ∧
      (AIChatHandler.getErrorResponse e env.now sessionId).reply ≠ "") := by
  have hdef : AIChatHandler.handleMessage env message sessionId st =
      Eff.tryCatch (AIChatHandler.handleMessageBody env message sessionId)
        (fun error =>
          Eff.pure (AIChatHandler.getErrorResponse error env.now sessionId))
        st := rfl
  rcases hb : AIChatHandler.handleMessageBody env message sessionId st with
    ⟨r1, s1, l1⟩
  rw [hdef, Eff.run_tryCatch, hb]
  cases r1 with
  | ok a =>
    refine ⟨⟨a, rfl⟩, ?_, ?_⟩
    · intro r hr
      simp at hr
      rw [hr]
    · intro e he
      simp at he
  | error e0 =>
    refine ⟨⟨AIChatHandler.getErrorResponse e0 env.now sessionId, rfl⟩,
      ?_, ?_⟩
    · intro r hr
      simp at hr
    · intro e he
      simp at he
      subst he
      exact ⟨rfl, rfl, rfl, getErrorResponse_reply_ne e0 env.now sessionId⟩

/-! ## Shared concrete fixtures for witnesses -/

/-- metadata of the `projects` object used in witnesses -/
def mdProjects : ObjectMetadata :=
  { resourceName := "projects", label := "Projects",
    pluralLabel := "Projects", isCustom := false,
    attributes :=
      [{ apiName := "_internalId", displayName := "Internal ID",
         dataType := "number" },
       { apiName := "status", displayName := "Status", dataType := "string" },
       { apiName := "health", displayName := "Health",
         dataType := "string" }] }

/-- three project records: two `Active`, one `Completed` -/
def recsFix : List RecordJson :=
  [[("_internalId", JsValue.vNum 1), ("status", JsValue.vStr "Active"),
    ("name", JsValue.vStr "P1")],
   [("_internalId", JsValue.vNum 2), ("status", JsValue.vStr "Active"),
    ("name", JsValue.vStr "P2")],
   [("_internalId", JsValue.vNum 3), ("status", JsValue.vStr "Completed"),
    ("name", JsValue.vStr "P3")]]

/-- an analyze plan proposed by the reasoning oracle, with groupByField
`health` -/
def planHealth : APIPlan :=
  { action := "analyze", objectType := "projects", method := "GET",
    endpoint := "/projects", groupByField := some "health",
    explanation := "distribution" }

/-- a fixture environment: no custom objects, `projects` metadata, three
records for every GET, a reasoning oracle proposing `planHealth` -/
def envFix : Env :=
  { now := 1000, clarityBase := "http://x/ppm/rest/v1", capabilities := {},
    discoverAllObjects := Except.ok ["projects"],
    getCustomObjects := Except.ok [],
    fetchObjectMetadata := fun ot =>
      if ot = "projects" then Except.ok mdProjects else Except.error "404",
    getObjectLabel := fun _ => Except.ok "Projects",
    reasoning := fun _ => Except.ok planHealth,
    apiGet := fun _ =>
      Except.ok { results := some recsFix, totalCount := some 3 },
    apiPost := fun _ _ => Except.error "x",
    apiPatch := fun _ _ => Except.error "x",
    apiDelete := fun _ => Except.error "x" }

/-- a handler state with discovered objects and pre-cached `projects`
metadata -/
def stFix : HandlerState :=
  { discoveredObjects := ["projects"],
    metadataCache := fupdate (fun _ => none) "projects" mdProjects,
    contexts := emptyStore }

/-- an environment that fails immediately on object discovery -/
def envC7 : Env :=
  { envFix with discoverAllObjects := Except.error "boom" }

/-- a fresh handler state (nothing discovered, nothing cached) -/
def stEmpty : HandlerState :=
  { discoveredObjects := [], metadataCache := fun _ => none,
    contexts := emptyStore }

/-- witness for C7: with a discovery oracle that throws, the body of
`handleMessage` raises the error and `handleMessage` converts it into the
`getErrorResponse` failure. -/
theorem claim_C7_total_entry_point_witness :
    (AIChatHandler.handleMessageBody envC7 "list projects" "default"
      stEmpty).1 = Except.error "boom" ∧
    (AIChatHandler.handleMessage envC7 "list projects" "default"
      stEmpty).1 =
      Except.ok (AIChatHandler.getErrorResponse "boom" 1000 "default") := by
  have h := (claim_C7_total_entry_point envC7 "list projects" "default"
    stEmpty).2.2 "boom" (by rfl)
  exact ⟨by rfl, h.1⟩

/-! ## Claim C1: field-hint precedence -/

/-- **C1** (field-hint precedence): when the pre-processing scan of
`getAIPlan` finds a field hint `X` (an attribute of the resolved object
type whose display name or apiName occurs in the message) and the external
reasoning service replies with an `analyze` plan whose `groupByField` is
`Y`, the returned plan's `groupByField` is forced to `X`, not `Y`. -/
theorem claim_C1_field_hint_precedence
    (env : Env) (userMessage : String) (context : ConversationContext)
    (st st1 st2 : HandlerState) (l1 l2 : List RemoteCall)
    (tgt : AIChatHandler.TargetObject) (md : ObjectMetadata)
    (cos : List CustomObject) (plan : APIPlan) (X Y : String)
    (hdet : AIChatHandler.detectTargetObject env userMessage
      context.sessionId st = (Except.ok (some tgt), st1, l1))
    (hmd : AIChatHandler.getObjectMetadata env tgt.objectType st1 =
      (Except.ok md, st2, l2))
    (hcos : env.getCustomObjects = Except.ok cos)
    (hhint : AIChatHandler.findFieldHint userMessage md.attributes = X)
    (hX : X ≠ "")
    (hreason : ∀ req, env.reasoning req = Except.ok plan)
    (hanalyze : plan.action = "analyze")
    (hY : plan.groupByField = some Y) (hXY : Y ≠ X) :
    ∃ plan',
      (AIChatHandler.getAIPlan env userMessage context st).1 =
        Except.ok plan' ∧
      plan'.groupByField = some X ∧ plan'.groupByField ≠ some Y := by
  have hmd2 : AIChatHandler.getObjectMetadata env
      (((some tgt).map (fun t => t.objectType)).getD "projects") st1 =
      (Except.ok md, st2, l2) := hmd
  refine ⟨{ plan with groupByField := some X }, ?_, by simp,
    fun h => hXY (Option.some.inj h).symm⟩
  simp only [AIChatHandler.getAIPlan, Eff.run_bind, hdet, hmd2,
    getCustomObjectsM, Eff.run_tell, hcos, Eff.run_liftExcept_ok,
    Eff.run_get, Eff.run_onContexts, hhint, hreason, Eff.run_pure,
    Option.map_some', Option.getD_some]
  simp [hmd, hhint, hX, hanalyze, Eff.run_pure, Eff.run_pure_eff]

/-- witness for C1: the message "analyze projects by status" mentions the
display name `Status` (apiName `status`); the reasoning oracle proposes an
analyze plan grouped by `health`, but the returned plan is grouped by
`status`. -/
theorem claim_C1_field_hint_precedence_witness :
    AIChatHandler.findFieldHint "analyze projects by status"
      mdProjects.attributes = "status" ∧
    planHealth.groupByField = some "health" ∧
    ∃ plan',
      (AIChatHandler.getAIPlan envFix "analyze projects by status"
        (ContextService.createNewContext "default") stFix).1 =
        Except.ok plan' ∧
      plan'.groupByField = some "status" ∧
      plan'.groupByField ≠ some "health" := by
  refine ⟨by decide, rfl, ?_⟩
  exact claim_C1_field_hint_precedence envFix "analyze projects by status"
    (ContextService.createNewContext "default") stFix stFix stFix
    [RemoteCall.metadata "getCustomObjects"] []
    { objectType := "projects", label := "Projects" } mdProjects []
    planHealth "status" "health" rfl rfl rfl (by decide) (by decide)
    (fun _ => rfl) rfl rfl (by decide)

/-! ## The drill-down run lemmas (shared by several claims) -/

theorem getContext_of_mem (s : ContextStore) (sid : String)
    (ctx : ConversationContext) (h : s sid = some ctx) :
    ContextService.getContext s sid = (ctx, s) := by
  unfold ContextService.getContext
  rw [h]

/-- the endpoint issued by a drill-down into label `L` of field `F` -/
def drillEndpoint (ot F L : String) : String :=
  "/" ++ ot ++ "?filter=((" ++ F ++ " = " ++ sqs ++ L ++ sqs ++
    "))&fields=_internalId,name,code,status&limit=50"

/-- the `lastQuery` record stored after a successful drill-down -/
def drillNewQuery (q : LastQuery) (F L : String) (resp : ApiResult)
    (now : Int) : LastQuery :=
  { objectType := q.objectType, objectLabel := q.objectLabel,
    action := "drilldown", filters := some [(F, L)],
    results := some (resp.results.getD []),
    totalCount := some (resp.totalCount.getD (resp.results.getD []).length),
    timestamp := now }

/-- the handler state after a successful drill-down stored `newQ` -/
def drillOutState (st : HandlerState) (sid : String)
    (ctx : ConversationContext) (newQ : LastQuery) : HandlerState :=
  { st with
    contexts := fupdate st.contexts sid { ctx with lastQuery := some newQ } }

/-- the reply text of a successful drill-down -/
def drillReply (env : Env) (q : LastQuery) (F L : String)
    (resp : ApiResult) : String :=
  let records := resp.results.getD []
  let totalCount := resp.totalCount.getD records.length
  let deepLink := DeepLinkService.generateFilteredLink
    (DeepLinkService.stripBase env.clarityBase) q.objectType F L
  "üîç **" ++ q.objectLabel ++ " where " ++
    ((jsOr q.groupByDisplayName (some F)).getD "") ++ " = \"" ++ L ++
    "\"**\n" ++ "Found **" ++ toString totalCount ++ "** records\n\n" ++
    AIChatHandler.recordLines (records.take 15) ++
    (if totalCount > 15 then
      "\n_...and " ++ toString (totalCount - 15) ++ " more_"
    else "") ++
    "\n\nüîó [Open in Clarity](" ++ deepLink ++ ")"

theorem handleDrillDown_success_run
    (env : Env) (st : HandlerState) (sid : String) (v msg : String)
    (ts : Int) (ctx : ConversationContext) (q : LastQuery) (F L : String)
    (resp : ApiResult)
    (hctx : st.contexts sid = some ctx)
    (hq : ctx.lastQuery = some q)
    (hF : q.groupByField = some F) (hFne : F ≠ "")
    (hot : q.objectType ≠ "")
    (hv : v ≠ "")
    (hfind : ContextService.findDrillDownMatch st.contexts sid v =
      (some L, st.contexts))
    (hL : L ≠ "")
    (hapi : env.apiGet (drillEndpoint q.objectType F L) = Except.ok resp) :
    AIChatHandler.handleDrillDown env sid (some v) msg ts st =
      (Except.ok (some
        { success := true, reply := drillReply env q F L resp,
          chartData := none, timestamp := ts,
          deepLink := some (DeepLinkService.generateFilteredLink
            (DeepLinkService.stripBase env.clarityBase) q.objectType F L) }),
       drillOutState st sid ctx (drillNewQuery q F L resp env.now),
       [RemoteCall.api (drillEndpoint q.objectType F L)]) := by
  have hget := getContext_of_mem st.contexts sid ctx hctx
  have hapi2 : env.apiGet ("/" ++ q.objectType ++ "?filter=((" ++ F ++
      " = " ++ sqs ++ L ++ sqs ++
      "))&fields=_internalId,name,code,status&limit=50") = Except.ok resp :=
    hapi
  simp [AIChatHandler.handleDrillDown, Eff.run_bind, Eff.run_onContexts,
    hget, hq, hF, hFne, hot, hv, hL, jsTruthy, Eff.run_pure,
    Eff.run_pure_eff, Eff.run_tryCatch, Eff.run_tell, Eff.run_liftExcept_ok,
    Eff.run_modifyContexts, hfind, hapi2, clientGet,
    ContextService.updateLastQuery, drillNewQuery, drillOutState,
    drillEndpoint, drillReply]

/-! ## Claim C9: drill-down resets the drill-down state -/

/-- **C9**: a successful drill-down overwrites the session's `lastQuery`
with a record whose action is `drilldown` and whose filters are the
single resolved field/value pair, but with neither `chartData` nor
`groupByField`; consequently `canDrillDown` is false immediately
afterwards, so a second consecutive drill-down follow-up cannot take the
drill-down path until a new analysis runs. -/
theorem claim_C9_drilldown_resets_state
    (env : Env) (st : HandlerState) (sid : String) (v msg : String)
    (ts : Int) (ctx : ConversationContext) (q : LastQuery) (F L : String)
    (resp : ApiResult)
    (hctx : st.contexts sid = some ctx)
    (hq : ctx.lastQuery = some q)
    (hF : q.groupByField = some F) (hFne : F ≠ "")
    (hot : q.objectType ≠ "")
    (hv : v ≠ "")
    (hfind : ContextService.findDrillDownMatch st.contexts sid v =
      (some L, st.contexts))
    (hL : L ≠ "")
    (hapi : env.apiGet (drillEndpoint q.objectType F L) = Except.ok resp) :
    ∃ r,
      (AIChatHandler.handleDrillDown env sid (some v) msg ts st).1 =
        Except.ok (some r) ∧ r.success = true ∧
      ∃ ctx' q',
        (AIChatHandler.handleDrillDown env sid (some v) msg ts
          st).2.1.contexts sid = some ctx' ∧
        ctx'.lastQuery = some q' ∧ q'.action = "drilldown" ∧
        q'.filters = some [(F, L)] ∧ q'.chartData = none ∧
        q'.groupByField = none ∧
        (ContextService.canDrillDown
          (AIChatHandler.handleDrillDown env sid (some v) msg ts
            st).2.1.contexts sid).1 = false := by
  rw [handleDrillDown_success_run env st sid v msg ts ctx q F L resp hctx hq
    hF hFne hot hv hfind hL hapi]
  refine ⟨_, rfl, rfl,
    { ctx with lastQuery := some (drillNewQuery q F L resp env.now) },
    drillNewQuery q F L resp env.now, ?_, rfl, rfl, rfl, rfl, rfl, ?_⟩
  · simp [drillOutState, fupdate]
  · simp [ContextService.canDrillDown, ContextService.getContext,
      drillOutState, fupdate, drillNewQuery, jsTruthy]

/-- the context stored after the fixture analysis (grouped by `status`,
labels `Active`/`Completed`) -/
def ctxAfterAnalyze : ConversationContext :=
  { sessionId := "default",
    lastQuery := some
      { objectType := "projects", objectLabel := "Projects",
        action := "analyze", totalCount := some 3,
        groupByField := some "status",
        groupByDisplayName := some "Status",
        chartData := some [("status",
          [{ label := "Active", value := 2 },
           { label := "Completed", value := 1 }])],
        timestamp := 1000 } }

/-- a handler state holding `ctxAfterAnalyze` for session `default` -/
def stAfterAnalyze : HandlerState :=
  { stFix with contexts := fupdate emptyStore "default" ctxAfterAnalyze }

/-- witness for C9: drilling down into `active` after the fixture analysis
stores a `drilldown` query filtered by `status = Active` and disables
further drill-down. -/
theorem claim_C9_drilldown_resets_state_witness :
    ∃ r,
      (AIChatHandler.handleDrillDown envFix "default" (some "active")
        "show me the active ones" 1000 stAfterAnalyze).1 =
        Except.ok (some r) ∧ r.success = true ∧
      ∃ ctx' q',
        (AIChatHandler.handleDrillDown envFix "default" (some "active")
          "show me the active ones" 1000 stAfterAnalyze).2.1.contexts
          "default" = some ctx' ∧
        ctx'.lastQuery = some q' ∧ q'.action = "drilldown" ∧
        q'.filters = some [("status", "Active")] ∧ q'.chartData = none ∧
        q'.groupByField = none ∧
        (ContextService.canDrillDown
          (AIChatHandler.handleDrillDown envFix "default" (some "active")
            "show me the active ones" 1000 stAfterAnalyze).2.1.contexts
          "default").1 = false :=
  claim_C9_drilldown_resets_state envFix stAfterAnalyze "default" "active"
    "show me the active ones" 1000 ctxAfterAnalyze
    (ctxAfterAnalyze.lastQuery.getD
      { objectType := "", objectLabel := "", action := "", timestamp := 0 })
    "status" "Active"
    { results := some recsFix, totalCount := some 3 }
    rfl rfl rfl (by decide) (by decide) (by decide) rfl (by decide) rfl

/-! ## Claim C4: drill-down no-match -/

/-- **C4** (drill-down no-match): with prior chart labels
`["Active","Completed"]`, a follow-up whose extracted value matches no
label (neither exactly nor by bidirectional substring) and whose text
contains neither label verbatim makes the drill-down handler return a
failure that lists exactly those two labels, with no remote call and no
state change. -/
theorem claim_C4_drilldown_no_match
    (env : Env) (st : HandlerState) (sid : String) (ev : Option String)
    (msg : String) (ts : Int) (ctx : ConversationContext) (q : LastQuery)
    (F : String) (cd : List (String × List ChartBucket))
    (buckets : List ChartBucket)
    (hctx : st.contexts sid = some ctx)
    (hq : ctx.lastQuery = some q)
    (hF : q.groupByField = some F) (hFne : F ≠ "")
    (hot : q.objectType ≠ "")
    (hcd : q.chartData = some cd)
    (hlook : cd.lookup F = some buckets)
    (hlabels : buckets.map (fun b => b.label) = ["Active", "Completed"])
    (hphase1 : ∀ w, ev = some w →
      ContextService.findDrillDownMatch st.contexts sid w =
        (none, st.contexts))
    (hscanA : strIncludes (strLower msg) "active" = false)
    (hscanC : strIncludes (strLower msg) "completed" = false) :
    AIChatHandler.handleDrillDown env sid ev msg ts st =
      (Except.ok (some
        { success := false,
          reply := AIChatHandler.noMatchReply ["Active", "Completed"],
          chartData := none, timestamp := ts }),
       st, []) := by
  have hget := getContext_of_mem st.contexts sid ctx hctx
  have hopts : ContextService.getDrillDownOptions st.contexts sid =
      (["Active", "Completed"], st.contexts) := by
    unfold ContextService.getDrillDownOptions
    rw [hget]
    simp [hq, hcd, hF, hFne, jsTruthy, hlook, hlabels]
  have hA : strIncludes (strLower msg) (strLower "Active") = false := by
    rw [show strLower "Active" = "active" from by decide]
    exact hscanA
  have hC : strIncludes (strLower msg) (strLower "Completed") = false := by
    rw [show strLower "Completed" = "completed" from by decide]
    exact hscanC
  cases ev with
  | none =>
    simp [AIChatHandler.handleDrillDown, Eff.run_bind, Eff.run_onContexts,
      hget, hq, hF, hFne, hot, jsTruthy, Eff.run_pure, Eff.run_pure_eff,
      hopts, List.find?, hA, hC]
  | some w =>
    by_cases hw : w = ""
    · subst hw
      simp [AIChatHandler.handleDrillDown, Eff.run_bind, Eff.run_onContexts,
        hget, hq, hF, hFne, hot, jsTruthy, Eff.run_pure, Eff.run_pure_eff,
        hopts, List.find?, hA, hC]
    · have hfind := hphase1 w rfl
      simp [AIChatHandler.handleDrillDown, Eff.run_bind, Eff.run_onContexts,
        hget, hq, hF, hFne, hot, hw, jsTruthy, Eff.run_pure,
        Eff.run_pure_eff, hfind, hopts, List.find?, hA, hC]

/-- witness for C4: after the fixture analysis (labels
`Active`/`Completed`), the follow-up "show me the foo ones" (extracted
value `foo`) yields the failure listing exactly those labels and performs
no remote call. -/
theorem claim_C4_drilldown_no_match_witness :
    AIChatHandler.handleDrillDown envFix "default" (some "foo")
      "show me the foo ones" 1000 stAfterAnalyze =
      (Except.ok (some
        { success := false,
          reply := AIChatHandler.noMatchReply ["Active", "Completed"],
          chartData := none, timestamp := 1000 }),
       stAfterAnalyze, []) :=
  claim_C4_drilldown_no_match envFix stAfterAnalyze "default" (some "foo")
    "show me the foo ones" 1000 ctxAfterAnalyze
    (ctxAfterAnalyze.lastQuery.getD
      { objectType := "", objectLabel := "", action := "", timestamp := 0 })
    "status"
    [("status",
      [{ label := "Active", value := 2 },
       { label := "Completed", value := 1 }])]
    [{ label := "Active", value := 2 }, { label := "Completed", value := 1 }]
    rfl rfl rfl (by decide) (by decide) rfl rfl (by decide)
    (fun w hw => by cases hw; rfl) (by decide) (by decide)

/-! ## Distribution lemmas for claim C2 -/

theorem bumpDist_labels (d : List ChartBucket) (k : String) :
    (AIChatHandler.bumpDist d k).map (fun b => b.label) =
      if d.any (fun b => b.label = k) then d.map (fun b => b.label)
      else d.map (fun b => b.label) ++ [k] := by
  unfold AIChatHandler.bumpDist
  split
  · rw [List.map_map]
    apply List.map_congr_left
    intro b _
    by_cases hb : b.label = k <;> simp [hb]
  · simp

theorem map_bump_sum (k : String) :
    ∀ d : List ChartBucket, (d.map (fun b => b.label)).Nodup →
      d.any (fun b => b.label = k) = true →
      ((d.map (fun b =>
        if b.label = k then { b with value := b.value + 1 } else b)).map
          (fun b => b.value)).sum =
        (d.map (fun b => b.value)).sum + 1
  | [], _, hany => by simp at hany
  | b :: rest, hnodup, hany => by
    simp only [List.map_cons, List.nodup_cons] at hnodup
    by_cases hb : b.label = k
    · have hrest : ∀ x ∈ rest, x.label ≠ k := fun x hx hxk =>
        hnodup.1 (by rw [hb, ← hxk]; exact List.mem_map_of_mem _ hx)
    /- the bump is the identity on the rest -/
      have hid : rest.map (fun x =>
          if x.label = k then { x with value := x.value + 1 } else x) =
          rest := by
        rw [show rest = rest.map id by simp]
        rw [List.map_map]
        apply List.map_congr_left
        intro x hx
        simp [if_neg (hrest x (by simpa using hx))]
      simp only [List.map_cons, if_pos hb, List.sum_cons, hid]
      omega
    · have hany2 : rest.any (fun x => x.label = k) = true := by
        simp only [List.any_cons, Bool.or_eq_true] at hany
        rcases hany with h1 | h2
        · exact absurd (of_decide_eq_true h1) hb
        · exact h2
      have ih := map_bump_sum k rest hnodup.2 hany2
      simp only [List.map_cons, if_neg hb, List.sum_cons, ih]
      omega

theorem bumpDist_sum (d : List ChartBucket) (k : String)
    (hnodup : (d.map (fun b => b.label)).Nodup) :
    ((AIChatHandler.bumpDist d k).map (fun b => b.value)).sum =
      (d.map (fun b => b.value)).sum + 1 := by
  unfold AIChatHandler.bumpDist
  by_cases hany : d.any (fun b => b.label = k) = true
  · rw [if_pos hany]
    exact map_bump_sum k d hnodup hany
  · rw [if_neg hany]
    simp

theorem bumpDist_nodup (d : List ChartBucket) (k : String)
    (hnodup : (d.map (fun b => b.label)).Nodup) :
    ((AIChatHandler.bumpDist d k).map (fun b => b.label)).Nodup := by
  rw [bumpDist_labels]
  split
  · exact hnodup
  · next hany =>
    have hk : k ∉ d.map (fun b => b.label) := by
      intro hc
      rcases List.mem_map.mp hc with ⟨b, hb, hbk⟩
      apply hany
      rw [List.any_eq_true]
      exact ⟨b, hb, by simp [hbk]⟩
    simp [List.nodup_append, hnodup, hk]

theorem buildDistribution_fold (f : String) :
    ∀ (records : List RecordJson) (d : List ChartBucket),
      (d.map (fun b => b.label)).Nodup →
      (((records.foldl (fun dist record =>
          let dv := AIChatHandler.formatFieldValue (recGet record f)
          let displayValue := if dv = "" then "(No value)" else dv
          AIChatHandler.bumpDist dist displayValue) d).map
        (fun b => b.value)).sum =
        (d.map (fun b => b.value)).sum + records.length ∧
      ((records.foldl (fun dist record =>
          let dv := AIChatHandler.formatFieldValue (recGet record f)
          let displayValue := if dv = "" then "(No value)" else dv
          AIChatHandler.bumpDist dist displayValue) d).map
        (fun b => b.label)).Nodup)
  | [], d, hd => by simpa using hd
  | r :: rest, d, hd => by
    simp only [List.foldl_cons]
    have hb1 := bumpDist_sum d
      (if AIChatHandler.formatFieldValue (recGet r f) = "" then "(No value)"
       else AIChatHandler.formatFieldValue (recGet r f)) hd
    have hb2 := bumpDist_nodup d
      (if AIChatHandler.formatFieldValue (recGet r f) = "" then "(No value)"
       else AIChatHandler.formatFieldValue (recGet r f)) hd
    have hrec := buildDistribution_fold f rest
      (AIChatHandler.bumpDist d
        (if AIChatHandler.formatFieldValue (recGet r f) = "" then
          "(No value)"
         else AIChatHandler.formatFieldValue (recGet r f))) hb2
    constructor
    · rw [hrec.1, hb1]
      simp only [List.length_cons]
      omega
    · exact hrec.2

theorem buildDistribution_sum (records : List RecordJson) (f : String) :
    ((AIChatHandler.buildDistribution records f).map
      (fun b => b.value)).sum = records.length := by
  have h := (buildDistribution_fold f records [] (by simp)).1
  unfold AIChatHandler.buildDistribution
  simpa using h

theorem sortInsert_perm (le : α → α → Bool) (x : α) :
    ∀ l : List α, (sortInsert le x l).Perm (x :: l)
  | [] => List.Perm.refl _
  | y :: ys => by
    unfold sortInsert
    by_cases h : le y x = true
    · rw [if_pos h]
      exact ((sortInsert_perm le x ys).cons y).trans (List.Perm.swap x y ys)
    · rw [if_neg h]

theorem foldl_sortInsert_perm (le : α → α → Bool) :
    ∀ (l acc : List α),
      (l.foldl (fun acc x => sortInsert le x acc) acc).Perm (acc ++ l)
  | [], acc => by simp
  | x :: xs, acc => by
    simp only [List.foldl_cons]
    refine (foldl_sortInsert_perm le xs (sortInsert le x acc)).trans ?_
    refine (((sortInsert_perm le x acc)).append_right xs).trans ?_
    simpa using (List.perm_middle).symm

theorem stableSort_perm (le : α → α → Bool) (l : List α) :
    (stableSort le l).Perm l := by
  simpa using foldl_sortInsert_perm le l []

theorem stableSort_value_sum (d : List ChartBucket)
    (le : ChartBucket → ChartBucket → Bool) :
    ((stableSort le d).map (fun b => b.value)).sum =
      (d.map (fun b => b.value)).sum :=
  ((stableSort_perm le d).map (fun b => b.value)).sum_eq

/-! ## Claim C2: the grouping round-trip -/

/-- the endpoint issued by `executeAnalyze` for object type `ot` grouped by
the resolved field `f` -/
def analyzeEndpoint (ot f : String) : String :=
  "/" ++ ot ++ "?fields=_internalId," ++ f ++ "&limit=500"

/-- the sorted bucket array stored by `executeAnalyze` -/
def analyzeChartArray (records : List RecordJson) (f : String) :
    List ChartBucket :=
  stableSort (fun a b => b.value ≤ a.value)
    (AIChatHandler.buildDistribution records f)

/-- the `lastQuery` record stored by a successful `executeAnalyze` -/
def analyzeNewQuery (plan : APIPlan) (fm : AttributeMetadata)
    (label : String) (records : List RecordJson) (now : Int) : LastQuery :=
  { objectType := plan.objectType, objectLabel := label,
    action := "analyze", totalCount := some (records.length : Int),
    groupByField := some fm.apiName,
    groupByDisplayName := some fm.displayName,
    chartData := some [(fm.apiName, analyzeChartArray records fm.apiName)],
    timestamp := now }

/-- the session context stored by a successful `executeAnalyze` -/
def analyzeOutCtx (ctx : ConversationContext) (plan : APIPlan)
    (fm : AttributeMetadata) (label : String) (records : List RecordJson)
    (now : Int) : ConversationContext :=
  { ctx with lastQuery := some (analyzeNewQuery plan fm label records now) }

/-- the handler state after a successful `executeAnalyze` -/
def analyzeOutState (st : HandlerState) (sid : String)
    (ctx : ConversationContext) (plan : APIPlan) (fm : AttributeMetadata)
    (label : String) (records : List RecordJson) (now : Int) :
    HandlerState :=
  { st with
    contexts :=
      fupdate st.contexts sid (analyzeOutCtx ctx plan fm label records now) }

theorem executeAnalyze_success_run
    (env : Env) (st : HandlerState) (sid : String) (plan : APIPlan)
    (md : ObjectMetadata) (fm : AttributeMetadata) (resp : ApiResult)
    (label : String) (ctx : ConversationContext)
    (hctx : st.contexts sid = some ctx)
    (hmd : st.metadataCache plan.objectType = some md)
    (hfm : md.attributes.find? (fun a =>
      strLower a.apiName = strLower (plan.groupByField.getD "status") ||
      strLower a.displayName = strLower (plan.groupByField.getD "status")) =
      some fm)
    (hapi : env.apiGet (analyzeEndpoint plan.objectType fm.apiName) =
      Except.ok resp)
    (hlabel : env.getObjectLabel plan.objectType = Except.ok label) :
    (AIChatHandler.executeAnalyze env plan sid st).2.1 =
      analyzeOutState st sid ctx plan fm label (resp.results.getD [])
        env.now ∧
    (∃ r, (AIChatHandler.executeAnalyze env plan sid st).1 =
      Except.ok r ∧ r.success = true) ∧
    (AIChatHandler.executeAnalyze env plan sid st).2.2 =
      [RemoteCall.api (analyzeEndpoint plan.objectType fm.apiName),
       RemoteCall.metadata ("getObjectLabel:" ++ plan.objectType)] := by
  have hget := getContext_of_mem st.contexts sid ctx hctx
  have hapi2 : env.apiGet ("/" ++ plan.objectType ++ "?fields=_internalId," ++
      fm.apiName ++ "&limit=500") = Except.ok resp := hapi
  simp [AIChatHandler.executeAnalyze, AIChatHandler.getObjectMetadata,
    Eff.run_bind, Eff.run_get, Eff.run_pure, Eff.run_pure_eff, hmd, hfm,
    Eff.run_tryCatch, Eff.run_tell, Eff.run_liftExcept_ok, hapi2, clientGet,
    getObjectLabelM, hlabel, Eff.run_modifyContexts,
    ContextService.updateLastQuery, hget, analyzeOutState, analyzeOutCtx,
    analyzeNewQuery, analyzeChartArray, analyzeEndpoint]

/-- Spec-side: the filter clause the spec prescribes for a drill-down into
label `L` of field `F` (to be compared with the endpoint the code
issues). -/
def specFilterClause (F L : String) : String :=
  "((" ++ F ++ " = " ++ sqs ++ L ++ sqs ++ "))"

/-- the endpoint the code issues carries exactly the spec filter clause -/
theorem drillEndpoint_filter (ot F L : String) :
    drillEndpoint ot F L = "/" ++ ot ++ "?filter=" ++ specFilterClause F L ++
      "&fields=_internalId,name,code,status&limit=50" := by
  unfold drillEndpoint specFilterClause
  apply String.ext
  simp [String.data_append, List.append_assoc]

/-- the label resolved by `findDrillDownMatch` is always one of the
drill-down options -/
theorem findDrillDownMatch_mem (s : ContextStore) (sid v L : String)
    (h : (ContextService.findDrillDownMatch s sid v).1 = some L) :
    L ∈ (ContextService.getDrillDownOptions s sid).1 := by
  unfold ContextService.findDrillDownMatch at h
  rcases hopts : ContextService.getDrillDownOptions s sid with ⟨options, s2⟩
  rw [hopts] at h
  simp only at h
  cases hex : options.find? (fun opt => strLower opt = strLower v) with
  | some m =>
    rw [hex] at h
    simp only at h
    have hm : m = L := by simpa using h
    exact hm ▸ List.mem_of_find?_eq_some hex
  | none =>
    rw [hex] at h
    simp only at h
    exact List.mem_of_find?_eq_some h

/-- **C2** (grouping round-trip): a successful analysis of `plan.objectType`
grouped by the resolved field `fm.apiName` stores a distribution whose
bucket values sum to the number of records fetched (and a matching
`totalCount`); and any subsequent drill-down that resolves to a label `L`
picks `L` from the labels of that stored distribution and issues exactly
one API query whose filter clause is exactly `((F = 'L'))` for the stored
field `F`. -/
theorem claim_C2_grouping_round_trip
    (env : Env) (st : HandlerState) (sid : String) (plan : APIPlan)
    (md : ObjectMetadata) (fm : AttributeMetadata) (resp : ApiResult)
    (label : String) (ctx : ConversationContext) (msg : String) (ts : Int)
    (hctx : st.contexts sid = some ctx)
    (hmd : st.metadataCache plan.objectType = some md)
    (hfm : md.attributes.find? (fun a =>
      strLower a.apiName = strLower (plan.groupByField.getD "status") ||
      strLower a.displayName = strLower (plan.groupByField.getD "status")) =
      some fm)
    (hapi : env.apiGet (analyzeEndpoint plan.objectType fm.apiName) =
      Except.ok resp)
    (hlabel : env.getObjectLabel plan.objectType = Except.ok label)
    (hot : plan.objectType ≠ "") (hf : fm.apiName ≠ "") :
    (∃ r, (AIChatHandler.executeAnalyze env plan sid st).1 =
      Except.ok r ∧ r.success = true) ∧
    (AIChatHandler.executeAnalyze env plan sid st).2.1.contexts sid =
      some (analyzeOutCtx ctx plan fm label (resp.results.getD [])
        env.now) ∧
    (analyzeNewQuery plan fm label (resp.results.getD []) env.now).chartData
      = some [(fm.apiName,
          analyzeChartArray (resp.results.getD []) fm.apiName)] ∧
    ((analyzeChartArray (resp.results.getD []) fm.apiName).map
      (fun b => b.value)).sum = (resp.results.getD []).length ∧
    (analyzeNewQuery plan fm label (resp.results.getD [])
      env.now).totalCount = some ((resp.results.getD []).length : Int) ∧
    ∀ (v L : String) (resp2 : ApiResult),
      v ≠ "" → L ≠ "" →
      ContextService.findDrillDownMatch
        (AIChatHandler.executeAnalyze env plan sid st).2.1.contexts sid v =
        (some L,
         (AIChatHandler.executeAnalyze env plan sid st).2.1.contexts) →
      env.apiGet (drillEndpoint plan.objectType fm.apiName L) =
        Except.ok resp2 →
      L ∈ (analyzeChartArray (resp.results.getD []) fm.apiName).map
        (fun b => b.label) ∧
      (AIChatHandler.handleDrillDown env sid (some v) msg ts
        (AIChatHandler.executeAnalyze env plan sid st).2.1).2.2 =
        [RemoteCall.api ("/" ++ plan.objectType ++ "?filter=" ++
          specFilterClause fm.apiName L ++
          "&fields=_internalId,name,code,status&limit=50")] := by
  obtain ⟨hst1, hok, hlog⟩ := executeAnalyze_success_run env st sid plan md
    fm resp label ctx hctx hmd hfm hapi hlabel
  have hsum : ((analyzeChartArray (resp.results.getD []) fm.apiName).map
      (fun b => b.value)).sum = (resp.results.getD []).length := by
    unfold analyzeChartArray
    rw [stableSort_value_sum, buildDistribution_sum]
  have hctx1 : (analyzeOutState st sid ctx plan fm label
      (resp.results.getD []) env.now).contexts sid =
      some (analyzeOutCtx ctx plan fm label (resp.results.getD [])
        env.now) := by
    simp [analyzeOutState, fupdate]
  refine ⟨hok, by rw [hst1]; exact hctx1, rfl, hsum, rfl, ?_⟩
  intro v L resp2 hv hL hfind hapi2
  rw [hst1] at hfind
  have hopts : ContextService.getDrillDownOptions
      (analyzeOutState st sid ctx plan fm label (resp.results.getD [])
        env.now).contexts sid =
      ((analyzeChartArray (resp.results.getD []) fm.apiName).map
        (fun b => b.label),
       (analyzeOutState st sid ctx plan fm label (resp.results.getD [])
         env.now).contexts) := by
    unfold ContextService.getDrillDownOptions
    rw [getContext_of_mem _ _ _ hctx1]
    simp [analyzeOutCtx, analyzeNewQuery, jsTruthy, hf, List.lookup]
  have hmem : L ∈ (analyzeChartArray (resp.results.getD [])
      fm.apiName).map (fun b => b.label) := by
    have hm := findDrillDownMatch_mem _ sid v L (by rw [hfind])
    rw [hopts] at hm
    exact hm
  have hapi3 : env.apiGet (drillEndpoint
      (analyzeNewQuery plan fm label (resp.results.getD [])
        env.now).objectType fm.apiName L) = Except.ok resp2 := hapi2
  have hrun := handleDrillDown_success_run env
    (analyzeOutState st sid ctx plan fm label (resp.results.getD [])
      env.now) sid v msg ts
    (analyzeOutCtx ctx plan fm label (resp.results.getD []) env.now)
    (analyzeNewQuery plan fm label (resp.results.getD []) env.now)
    fm.apiName L resp2 hctx1 rfl rfl hf hot hv hfind hL hapi3
  refine ⟨hmem, ?_⟩
  rw [hst1, hrun]
  simp [drillEndpoint_filter, analyzeNewQuery]

/-- the fixture analyze plan grouped by `status` -/
def planStatus : APIPlan :=
  { planHealth with groupByField := some "status" }

/-- the `status` attribute of the fixture metadata -/
def fmStatus : AttributeMetadata :=
  { apiName := "status", displayName := "Status", dataType := "string" }

/-- a handler state with a fresh `default` session and pre-cached
`projects` metadata -/
def stPreAnalyze : HandlerState :=
  { stFix with
    contexts :=
      fupdate emptyStore "default"
        (ContextService.createNewContext "default") }

/-- witness for C2: analyzing the three fixture projects by `status` stores
buckets summing to 3, and drilling down into `active` afterwards issues
exactly the endpoint whose filter clause is `((status = 'Active'))`. -/
theorem claim_C2_grouping_round_trip_witness :
    ((analyzeChartArray recsFix "status").map (fun b => b.value)).sum = 3 ∧
    "Active" ∈ (analyzeChartArray recsFix "status").map
      (fun b => b.label) ∧
    (AIChatHandler.handleDrillDown envFix "default" (some "active")
      "show me the active ones" 1000
      (AIChatHandler.executeAnalyze envFix planStatus "default"
        stPreAnalyze).2.1).2.2 =
      [RemoteCall.api ("/" ++ "projects" ++ "?filter=" ++
        specFilterClause "status" "Active" ++
        "&fields=_internalId,name,code,status&limit=50")] := by
  have h := claim_C2_grouping_round_trip envFix stPreAnalyze "default"
    planStatus mdProjects fmStatus
    { results := some recsFix, totalCount := some 3 } "Projects"
    (ContextService.createNewContext "default") "show me the active ones"
    1000 rfl rfl rfl rfl rfl (by decide) (by decide)
  have hd := h.2.2.2.2.2 "active" "Active"
    { results := some recsFix, totalCount := some 3 }
    (by decide) (by decide) (by rfl) rfl
  exact ⟨h.2.2.2.1, hd.1, hd.2⟩

/-! ## Claim C3: the link fallback -/

/-- **C3 counterexample**: for the message "give me a link" in a session
with no prior query, `handleMessage` does attempt a remote call (the
external reasoning call of the AI-planning pipeline is in the call log),
and its reply is not the usage-examples failure: the failed link branch
does not short-circuit `handleMessage`. -/
theorem claim_C3_counterexample :
    RemoteCall.reasoning ∈
      (AIChatHandler.handleMessage envFix "give me a link" "default"
        stPreAnalyze).2.2 ∧
    ((AIChatHandler.handleMessage envFix "give me a link" "default"
        stPreAnalyze).1.toOption.map (fun r => r.reply)) ≠
      some AIChatHandler.linkUsageFailReply := by
  constructor
  · decide
  · decide

/-- **C3** (amended): with no prior query in the session,
`handleLinkRequest` itself returns the usage-examples failure for
"give me a link", with no state change and no remote call; but
`handleMessage` short-circuits on the link branch only when the link
result is *successful*, so the failed link request falls through into the
AI-planning pipeline, which attempts the external reasoning call and
answers with a different reply. -/
theorem claim_C3_link_fallback
    (env : Env) (st : HandlerState) (sid : String) (ts : Int)
    (ctx : ConversationContext)
    (hctx : st.contexts sid = some ctx)
    (hq : ctx.lastQuery = none) :
    AIChatHandler.handleLinkRequest env sid ts (some "give me a link") st =
      (Except.ok
        { success := false, reply := AIChatHandler.linkUsageFailReply,
          chartData := none, timestamp := ts },
       st, []) ∧
    RemoteCall.reasoning ∈
      (AIChatHandler.handleMessage envFix "give me a link" "default"
        stPreAnalyze).2.2 := by
  constructor
  · have hget := getContext_of_mem st.contexts sid ctx hctx
    have hm1 : matchLinkAllObject (strTrim (strLower "give me a link")).data
        = none := by rfl
    have hm2 : strIncludes (strTrim (strLower "give me a link"))
        "custom object" = false := by rfl
    have hm3 : matchLinkTo (strTrim (strLower "give me a link")).data =
        none := by rfl
    simp [AIChatHandler.handleLinkRequest, Eff.run_bind, Eff.run_onContexts,
      hget, Eff.run_pure, Eff.run_pure_eff, hm1, hm2, hm3,
      AIChatHandler.generateContextLink, hq]
  · decide

/-- witness for C3: the fixture session `default` has no prior query; the
link handler returns the usage failure with an empty call log, while the
full entry point goes on to attempt the reasoning call. -/
theorem claim_C3_link_fallback_witness :
    AIChatHandler.handleLinkRequest envFix "default" 1000
      (some "give me a link") stPreAnalyze =
      (Except.ok
        { success := false, reply := AIChatHandler.linkUsageFailReply,
          chartData := none, timestamp := 1000 },
       stPreAnalyze, []) ∧
    RemoteCall.reasoning ∈
      (AIChatHandler.handleMessage envFix "give me a link" "default"
        stPreAnalyze).2.2 :=
  claim_C3_link_fallback envFix stPreAnalyze "default" 1000
    (ContextService.createNewContext "default") rfl rfl
